import Mathlib

/-!
# hipTensor contraction entry points

A shallow embedding of `library/src/contraction/hiptensor_contraction.cpp`:
the five status-returning entry points that build a contraction descriptor,
build a find, negotiate a workspace size, build a plan and dispatch a
contraction.

Conventions of the embedding.

* A nullable pointer is an `Option`: `none` is `nullptr`, `some v` is a valid
  pointer whose pointee currently holds `v`.
* An entry point returns an `Outcome`: the status, the contents of its output
  object after the call, and the ordered list of calls it made to its
  collaborators (logger, solutions, selection models, HIP runtime).
* Where the C++ has undefined behaviour (reading through a null pointer,
  indexing a vector out of range, reading past a caller array) the embedding
  returns `none` instead of an `Outcome`.
* `std::size_t`, `uint64_t` and `uint32_t` values that are only stored,
  compared or passed on are natural numbers; `int32_t` mode labels are
  integers.
-/

namespace hiptensor

/-! ## Enumerations of the public header -/

/-- Modelled from the spec: the status codes of section 6; the enumeration is
declared in the public header, which is not among the sources. -/
inductive hiptensorStatus_t where
  | HIPTENSOR_STATUS_SUCCESS
  | HIPTENSOR_STATUS_NOT_INITIALIZED
  | HIPTENSOR_STATUS_NOT_SUPPORTED
  | HIPTENSOR_STATUS_INVALID_VALUE
  | HIPTENSOR_STATUS_ARCH_MISMATCH
  | HIPTENSOR_STATUS_INTERNAL_ERROR
  | HIPTENSOR_STATUS_INSUFFICIENT_WORKSPACE
  deriving DecidableEq

/-- Modelled from the spec: the element-wise operator enumeration of the public
header. The sources name only the identity operator; every other value is kept
by its integer code. -/
inductive hiptensorOperator_t where
  | HIPTENSOR_OP_IDENTITY
  | HIPTENSOR_OP_OTHER (code : Nat)
  deriving DecidableEq

/-- Modelled from the spec: the compute-precision enumeration of the public
header. The sources name the two complex precisions; every other (real)
precision is kept by its integer code. -/
inductive hiptensorComputeType_t where
  | HIPTENSOR_COMPUTE_C32F
  | HIPTENSOR_COMPUTE_C64F
  | HIPTENSOR_COMPUTE_OTHER (code : Nat)
  deriving DecidableEq

/-- Modelled from the spec: the algorithm selector of the public header. The
sources name three recognised values; any other value is kept by its integer
code. -/
inductive hiptensorAlgo_t where
  | HIPTENSOR_ALGO_DEFAULT
  | HIPTENSOR_ALGO_DEFAULT_PATIENT
  | HIPTENSOR_ALGO_ACTOR_CRITIC
  | HIPTENSOR_ALGO_OTHER (code : Int)
  deriving DecidableEq

/-- Modelled from the spec: the workspace preference of section 4.4, one of
MIN and MAX. -/
inductive hiptensorWorksizePreference_t where
  | HIPTENSOR_WORKSPACE_MIN
  | HIPTENSOR_WORKSPACE_MAX
  deriving DecidableEq

/-- Modelled from the spec: element data types. The sources name only the
placeholder `NONE_TYPE`; every real element type is kept by its integer
code. -/
inductive DataType where
  | NONE_TYPE
  | HIP_TYPE (code : Nat)
  deriving DecidableEq

/-- The four contraction kinds named by the sources
(`hiptensor::ContractionOpId_t`). -/
inductive ContractionOpId_t where
  | SCALE
  | SCALE_COMPLEX
  | BILINEAR
  | BILINEAR_COMPLEX
  deriving DecidableEq

/-! ## Opaque API objects -/

/-- The handle (declared in the public header): the only thing the entry
points read from it is the device it is bound to
(`realHandle->getDevice().getDeviceId()`). -/
structure hiptensorHandle_t where
  deviceId : Int
  deriving DecidableEq

/-- A tensor descriptor (declared in the public header): the four members the
entry points read, the first three in the order of the brace initialiser of
the scale placeholder. -/
structure hiptensorTensorDescriptor_t where
  mType : DataType
  mLengths : List Nat
  mStrides : List Nat
  mUnaryOp : hiptensorOperator_t
  deriving DecidableEq

/-- A contraction descriptor (declared in the public header), member by member
in the order of the brace initialisers of `hiptensorInitContractionDescriptor`.
The operation id is stored as the enumerator (the source stores its `int32_t`
cast and casts it back); the fourth member, which the sources never read by
name, is named after the alignment parameters it is built from. -/
structure hiptensorContractionDescriptor_t where
  mContractionOpId : ContractionOpId_t
  mComputeType : hiptensorComputeType_t
  mTensorDesc : List hiptensorTensorDescriptor_t
  mAlignmentRequirement : List Nat
  mTensorMode : List (List Int)
  deriving DecidableEq

/-! ## Solutions (external collaborators) -/

/-- Lengths, strides and mode labels of one operand, as passed to a
solution. -/
structure OperandLayout where
  lengths : List Nat
  strides : List Nat
  modes : List Int
  deriving DecidableEq

/-- The layouts of the four operands in the order they are passed on. -/
structure ContractionLayout where
  a : OperandLayout
  b : OperandLayout
  c : OperandLayout
  d : OperandLayout
  deriving DecidableEq

/-- The arguments shared by `initArgs` and `operator()` of a solution: six
buffer pointers, the layout of the four operands in call order, and the
workspace pointer. -/
structure SolutionArgs where
  alpha : Option Nat
  A : Option Nat
  B : Option Nat
  beta : Option Nat
  C : Option Nat
  D : Option Nat
  a : OperandLayout
  b : OperandLayout
  c : OperandLayout
  d : OperandLayout
  workspace : Option Nat
  deriving DecidableEq

/-- The execution configuration `StreamConfig` handed to `operator()`: stream,
whether to time the kernel, and (when the call site gives them) the log level
and the cold and hot repeat counts; `none` leaves them to the structure's
defaults. -/
structure StreamConfig where
  stream : Option Nat
  time_kernel : Bool
  repeats : Option (Nat × Nat × Nat)
  deriving DecidableEq

/-- Modelled from the spec: a contraction solution, the external contract of
section 4.1 (its class is not among the sources). The sources call `initArgs`,
`workspaceSize()`, the call operator (status and elapsed time), `uid()`,
`problemDims()` and `problemBytes()`; the kind and data-type tags are the ones
section 4.1 lists for the registry query. Each operation is a function of the
arguments the solution was last given; the elapsed time is kept in an integral
unit. -/
structure ContractionSolution where
  uid : Nat
  opId : ContractionOpId_t
  typeA : DataType
  typeB : DataType
  typeC : DataType
  typeD : DataType
  typeCompute : hiptensorComputeType_t
  initArgs : SolutionArgs → Bool
  workspaceSize : SolutionArgs → Nat
  invoke : SolutionArgs → Nat → StreamConfig → hiptensorStatus_t × Nat
  problemDims : SolutionArgs → Int × Int × Int
  problemBytes : SolutionArgs → Nat

/-- A find: the selection algorithm and the candidate solutions. -/
structure hiptensorContractionFind_t where
  mSelectionAlgorithm : hiptensorAlgo_t
  mCandidates : List ContractionSolution

/-- A plan: the frozen descriptor and the bound solution (`nullptr` while
unbound). -/
structure hiptensorContractionPlan_t where
  mContractionDesc : hiptensorContractionDescriptor_t
  mSolution : Option ContractionSolution

/-! ## Calls to collaborators -/

/-- The five entry points, as the logger is told them. -/
inductive Api where
  | InitContractionDescriptor
  | InitContractionFind
  | ContractionGetWorkspaceSize
  | InitContractionPlan
  | Contraction
  deriving DecidableEq

/-- One call an entry point makes to a collaborator. Log events keep the entry
point (and the status, or the logged numbers) but not the message text. A call
of a selection model keeps the candidates (by uid), the lengths, strides and
mode lists passed for the four operands, and the workspace budget. -/
inductive Event where
  | logAPITrace (api : Api)
  | logError (api : Api) (status : hiptensorStatus_t)
  | logSelection (algo : hiptensorAlgo_t) (kernelUid : Nat)
  | logMetrics (kernelUid : Nat) (avgTime : Nat) (flops : Nat) (bytes : Nat)
  | allSolutions
  | initArgs (uid : Nat) (args : SolutionArgs)
  | invoke (uid : Nat) (args : SolutionArgs) (workspaceSize : Nat) (config : StreamConfig)
  | bruteForceModel (candidates : List Nat) (layout : ContractionLayout) (workspaceSize : Nat)
  | actorCriticModel (candidates : List Nat) (layout : ContractionLayout) (workspaceSize : Nat)
  | hipEventCreate
  | hipEventRecord
  | hipEventSynchronize
  | hipEventElapsedTime
  | hipEventDestroy
  deriving DecidableEq

/-- The event only writes to the logger. -/
def Event.isLog : Event → Bool
  | .logAPITrace _ => true
  | .logError _ _ => true
  | .logSelection _ _ => true
  | .logMetrics _ _ _ _ => true
  | _ => false

/-- The event runs a solution's call operator. -/
def Event.isInvoke : Event → Bool
  | .invoke _ _ _ _ => true
  | _ => false

/-- What an entry point leaves behind: the returned status, the contents of
its output object after the call, and the calls it made, in order. -/
structure Outcome (α : Type) where
  status : hiptensorStatus_t
  out : α
  trace : List Event

open hiptensorStatus_t hiptensorOperator_t hiptensorComputeType_t hiptensorAlgo_t
open hiptensorWorksizePreference_t

/-! ## hiptensorInitContractionDescriptor -/

/-- The vector constructor `std::vector<int32_t>(mode, mode + n)`: the first
`n` labels of the caller's array. Reading past the end of the array, or from a
null array when `n` is positive, is undefined. -/
def readModes (mode : Option (List Int)) (n : Nat) : Option (List Int) :=
  match mode with
  | some xs => if n ≤ xs.length then some (xs.take n) else none
  | none => if n = 0 then some [] else none

/-- The test `typeCompute == HIPTENSOR_COMPUTE_C32F || typeCompute ==
HIPTENSOR_COMPUTE_C64F`. -/
def isComplexCompute (typeCompute : hiptensorComputeType_t) : Bool :=
  typeCompute = HIPTENSOR_COMPUTE_C32F || typeCompute = HIPTENSOR_COMPUTE_C64F

/-- The test `descC && descC->mUnaryOp != HIPTENSOR_OP_IDENTITY`. -/
def descCNonIdentity (descC : Option hiptensorTensorDescriptor_t) : Bool :=
  match descC with
  | some dC => dC.mUnaryOp != HIPTENSOR_OP_IDENTITY
  | none => false

/-- The placeholder record stored in the C slot of a scale contraction:
`NONE_TYPE` with zero-filled lengths and strides sized after D; the operator
member is not given by the initialiser and is value-initialised. -/
def scalePlaceholder (descD : hiptensorTensorDescriptor_t) : hiptensorTensorDescriptor_t :=
  { mType := DataType.NONE_TYPE
    mLengths := List.replicate descD.mLengths.length 0
    mStrides := List.replicate descD.mStrides.length 0
    mUnaryOp := HIPTENSOR_OP_OTHER 0 }

/-- The entry point `hiptensorInitContractionDescriptor`. The output is the
pointee of `desc` after the call. -/
def hiptensorInitContractionDescriptor
    (handle : Option hiptensorHandle_t)
    (desc : Option hiptensorContractionDescriptor_t)
    (descA : Option hiptensorTensorDescriptor_t) (modeA : Option (List Int))
    (alignmentRequirementA : Nat)
    (descB : Option hiptensorTensorDescriptor_t) (modeB : Option (List Int))
    (alignmentRequirementB : Nat)
    (descC : Option hiptensorTensorDescriptor_t) (modeC : Option (List Int))
    (alignmentRequirementC : Nat)
    (descD : Option hiptensorTensorDescriptor_t) (modeD : Option (List Int))
    (alignmentRequirementD : Nat)
    (typeCompute : hiptensorComputeType_t) :
    Option (Outcome (Option hiptensorContractionDescriptor_t)) :=
  let api := Api.InitContractionDescriptor
  match handle, desc, descA, descB, descD with
  | some _, some _, some dA, some dB, some dD =>
    if dA.mUnaryOp != HIPTENSOR_OP_IDENTITY || dB.mUnaryOp != HIPTENSOR_OP_IDENTITY
        || dD.mUnaryOp != HIPTENSOR_OP_IDENTITY || descCNonIdentity descC then
      some ⟨HIPTENSOR_STATUS_NOT_SUPPORTED, desc,
        [Event.logAPITrace api, Event.logError api HIPTENSOR_STATUS_NOT_SUPPORTED]⟩
    else
      match descC, modeC with
      | some dC, some _ =>
        -- bilinear contraction: the C descriptor is present
        (readModes modeA dA.mLengths.length).bind fun modeAV =>
        (readModes modeB dB.mLengths.length).bind fun modeBV =>
        (readModes modeC dC.mLengths.length).bind fun modeCV =>
        (readModes modeD dD.mLengths.length).bind fun modeDV =>
        let contractionOp :=
          if isComplexCompute typeCompute then ContractionOpId_t.BILINEAR_COMPLEX
          else ContractionOpId_t.BILINEAR
        some ⟨HIPTENSOR_STATUS_SUCCESS,
          some { mContractionOpId := contractionOp
                 mComputeType := typeCompute
                 mTensorDesc := [dA, dB, dC, dD]
                 mAlignmentRequirement :=
                   [alignmentRequirementA, alignmentRequirementB,
                    alignmentRequirementC, alignmentRequirementD]
                 mTensorMode := [modeAV, modeBV, modeCV, modeDV] },
          [Event.logAPITrace api]⟩
      | _, _ =>
        -- scale contraction: the C descriptor (or its mode list) is empty
        (readModes modeA dA.mLengths.length).bind fun modeAV =>
        (readModes modeB dB.mLengths.length).bind fun modeBV =>
        (readModes modeD dD.mLengths.length).bind fun modeDV =>
        let contractionOp :=
          if isComplexCompute typeCompute then ContractionOpId_t.SCALE_COMPLEX
          else ContractionOpId_t.SCALE
        some ⟨HIPTENSOR_STATUS_SUCCESS,
          some { mContractionOpId := contractionOp
                 mComputeType := typeCompute
                 mTensorDesc := [dA, dB, scalePlaceholder dD, dD]
                 mAlignmentRequirement :=
                   [alignmentRequirementA, alignmentRequirementB, 0, alignmentRequirementD]
                 mTensorMode := [modeAV, modeBV, modeDV] },
          [Event.logAPITrace api]⟩
  | _, _, _, _, _ =>
    some ⟨HIPTENSOR_STATUS_NOT_INITIALIZED, desc,
      [Event.logAPITrace api, Event.logError api HIPTENSOR_STATUS_NOT_INITIALIZED]⟩


/-! ## The process environment -/

/-- What the entry points read from the process: the device active on the
calling thread (`HipDevice currentDevice`), whether the logger's mask has the
performance-trace level, the cold and hot run counts of the options singleton
and the registry's query `allSolutions()`, kept as the entries (key and
solution) of its map `solutions()` in iteration order. The last two fields
serve the selection models of section 4.5 only: the device buffers the
brute-force model runs candidates on and the score the actor-critic predictor,
keyed on the shape, stride and mode metadata of the problem, gives a
candidate. -/
structure Env where
  currentDeviceId : Int
  perfTrace : Bool
  coldRuns : Nat
  hotRuns : Nat
  allSolutions : List (Nat × ContractionSolution)
  selectionBuffers : SolutionArgs
  predictor : ContractionLayout → ContractionSolution → Nat

/-! ## hiptensorInitContractionFind -/

/-- The test `algo == HIPTENSOR_ALGO_DEFAULT || algo ==
HIPTENSOR_ALGO_DEFAULT_PATIENT || algo == HIPTENSOR_ALGO_ACTOR_CRITIC`. -/
def isRecognizedAlgo (algo : hiptensorAlgo_t) : Bool :=
  algo = HIPTENSOR_ALGO_DEFAULT || algo = HIPTENSOR_ALGO_DEFAULT_PATIENT
    || algo = HIPTENSOR_ALGO_ACTOR_CRITIC

/-- The overload of `toVoidVec` for the registry's map: a vector of the map's
size holding the solution of each entry, in iteration order. -/
def toVoidVec (map : List (Nat × ContractionSolution)) : List ContractionSolution :=
  map.map fun p => p.2

/-- The entry point `hiptensorInitContractionFind`. The output is the pointee
of `find` after the call. -/
def hiptensorInitContractionFind (env : Env)
    (handle : Option hiptensorHandle_t)
    (find : Option hiptensorContractionFind_t)
    (algo : hiptensorAlgo_t) : Outcome (Option hiptensorContractionFind_t) :=
  let api := Api.InitContractionFind
  match handle, find with
  | some h, some f =>
    if env.currentDeviceId != h.deviceId then
      ⟨HIPTENSOR_STATUS_ARCH_MISMATCH, find,
        [Event.logAPITrace api, Event.logError api HIPTENSOR_STATUS_ARCH_MISMATCH]⟩
    else if isRecognizedAlgo algo then
      -- the stored selection algorithm is updated first
      let f1 : hiptensorContractionFind_t := { f with mSelectionAlgorithm := algo }
      if env.allSolutions.length == 0 then
        ⟨HIPTENSOR_STATUS_INTERNAL_ERROR, some f1,
          [Event.logAPITrace api, Event.allSolutions,
           Event.logError api HIPTENSOR_STATUS_INTERNAL_ERROR]⟩
      else
        ⟨HIPTENSOR_STATUS_SUCCESS, some { f1 with mCandidates := toVoidVec env.allSolutions },
          [Event.logAPITrace api, Event.allSolutions]⟩
    else
      ⟨HIPTENSOR_STATUS_INVALID_VALUE, find,
        [Event.logAPITrace api, Event.logError api HIPTENSOR_STATUS_INVALID_VALUE]⟩
  | _, _ =>
    ⟨HIPTENSOR_STATUS_NOT_INITIALIZED, find,
      [Event.logAPITrace api, Event.logError api HIPTENSOR_STATUS_NOT_INITIALIZED]⟩

/-! ## Reading the descriptor's metadata -/

/-- The metadata every call site passes to a solution or a selection model:
`mTensorDesc[i].mLengths` and `mTensorDesc[i].mStrides` for `i = 0..3`, with
the mode lists `mTensorMode[0]`, `mTensorMode[1]`, `mTensorMode[2]` and, for
the fourth operand, `mTensorMode[2]` again. An index out of range is
undefined. -/
def contractionLayout (desc : hiptensorContractionDescriptor_t) : Option ContractionLayout :=
  desc.mTensorDesc[0]?.bind fun t0 =>
  desc.mTensorMode[0]?.bind fun m0 =>
  desc.mTensorDesc[1]?.bind fun t1 =>
  desc.mTensorMode[1]?.bind fun m1 =>
  desc.mTensorDesc[2]?.bind fun t2 =>
  desc.mTensorMode[2]?.bind fun m2 =>
  desc.mTensorDesc[3]?.bind fun t3 =>
  some { a := ⟨t0.mLengths, t0.mStrides, m0⟩
         b := ⟨t1.mLengths, t1.mStrides, m1⟩
         c := ⟨t2.mLengths, t2.mStrides, m2⟩
         d := ⟨t3.mLengths, t3.mStrides, m2⟩ }

/-- The argument list of the dry-run `initArgs` call: six null buffers, the
descriptor's layouts and a null workspace. -/
def dryRunArgs (layout : ContractionLayout) : SolutionArgs :=
  { alpha := none, A := none, B := none, beta := none, C := none, D := none
    a := layout.a, b := layout.b, c := layout.c, d := layout.d
    workspace := none }

/-! ## hiptensorContractionGetWorkspaceSize -/

/-- The body of the candidate loop for a validating candidate: the update of
`*workspaceSize` by the candidate's `workspaceSize()`. -/
def workspaceUpdate (pref : hiptensorWorksizePreference_t) (workspaceSize size : Nat) : Nat :=
  if workspaceSize = 0 then size
  else if pref = HIPTENSOR_WORKSPACE_MIN then min workspaceSize size
  else max workspaceSize size

/-- The loop `for(auto* candidate : find->mCandidates)`, threading
`*workspaceSize` and the calls made so far. The descriptor is read in the loop
body, once per candidate. -/
def workspaceLoop (desc : hiptensorContractionDescriptor_t)
    (pref : hiptensorWorksizePreference_t) :
    List ContractionSolution → Nat → List Event → Option (Nat × List Event)
  | [], workspaceSize, trace => some (workspaceSize, trace)
  | solution :: rest, workspaceSize, trace =>
    (contractionLayout desc).bind fun layout =>
      let args := dryRunArgs layout
      let trace1 := trace ++ [Event.initArgs solution.uid args]
      if solution.initArgs args then
        workspaceLoop desc pref rest
          (workspaceUpdate pref workspaceSize (solution.workspaceSize args)) trace1
      else
        workspaceLoop desc pref rest workspaceSize trace1

/-- The entry point `hiptensorContractionGetWorkspaceSize`. The output is the
pointee of `workspaceSize` after the call. The API-trace message formats
`*workspaceSize` before any null check, so a null `workspaceSize` is read
through on entry. -/
def hiptensorContractionGetWorkspaceSize
    (handle : Option hiptensorHandle_t)
    (desc : Option hiptensorContractionDescriptor_t)
    (find : Option hiptensorContractionFind_t)
    (pref : hiptensorWorksizePreference_t)
    (workspaceSize : Option Nat) : Option (Outcome (Option Nat)) :=
  let api := Api.ContractionGetWorkspaceSize
  match workspaceSize with
  | none => none
  | some _ =>
    match handle, desc, find with
    | some _, some d, some f =>
      (workspaceLoop d pref f.mCandidates 0 [Event.logAPITrace api]).map fun r =>
        ⟨HIPTENSOR_STATUS_SUCCESS, some r.1, r.2⟩
    | _, _, _ =>
      some ⟨HIPTENSOR_STATUS_NOT_INITIALIZED, workspaceSize,
        [Event.logAPITrace api, Event.logError api HIPTENSOR_STATUS_NOT_INITIALIZED]⟩

/-! ## Registry query and selection models (collaborators outside the sources) -/

/-- Modelled from the spec: `Query::query(operationKind)` of section 4.2, whose
code is not among the sources: keep only the solutions tagged with that
kind. -/
def queryOpId (candidates : List ContractionSolution) (opId : ContractionOpId_t) :
    List ContractionSolution :=
  candidates.filter fun s => s.opId = opId

/-- Modelled from the spec: `Query::query(typeA, typeB, typeC, typeD,
typeCompute)` of section 4.2, whose code is not among the sources: keep only
the solutions whose data-type tags and compute type match exactly. The
arguments are in the order of the call site: A, B, the C slot (or `NONE_TYPE`),
the output D, the compute type. -/
def queryTypes (candidates : List ContractionSolution)
    (typeA typeB typeC typeD : DataType) (typeCompute : hiptensorComputeType_t) :
    List ContractionSolution :=
  candidates.filter fun s =>
    s.typeA = typeA && s.typeB = typeB && s.typeC = typeC && s.typeD = typeD
      && s.typeCompute = typeCompute

/-- What a selection model hands back to `hiptensorInitContractionPlan`: the
status it returns, the winner it wrote through `&winner` (null when it wrote
none) and the calls it made. -/
structure Selection where
  status : hiptensorStatus_t
  winner : Option ContractionSolution
  trace : List Event

/-- Modelled from the spec: the arguments the brute-force model of section 4.5
gives a candidate, its own device buffers with the layouts of the problem. -/
def selectionArgs (env : Env) (layout : ContractionLayout) : SolutionArgs :=
  { env.selectionBuffers with a := layout.a, b := layout.b, c := layout.c, d := layout.d }

/-- Modelled from the spec: the candidate loop of the brute-force model of
sections 4.5 and 5. A candidate that validates is executed with timing; the
fastest successful one so far is kept, the first seen on a tie. -/
def bruteForceLoop (env : Env) (args : SolutionArgs) (workspaceSize : Nat) :
    List ContractionSolution → Option (ContractionSolution × Nat) → List Event →
      Option (ContractionSolution × Nat) × List Event
  | [], best, trace => (best, trace)
  | s :: rest, best, trace =>
    if s.initArgs args then
      let config : StreamConfig := ⟨none, true, some (0, env.coldRuns, env.hotRuns)⟩
      let r := s.invoke args workspaceSize config
      let trace1 := trace ++ [Event.initArgs s.uid args,
        Event.invoke s.uid args workspaceSize config]
      if r.1 = HIPTENSOR_STATUS_SUCCESS then
        match best with
        | none => bruteForceLoop env args workspaceSize rest (some (s, r.2)) trace1
        | some (b, t) =>
          if r.2 < t then bruteForceLoop env args workspaceSize rest (some (s, r.2)) trace1
          else bruteForceLoop env args workspaceSize rest (some (b, t)) trace1
      else bruteForceLoop env args workspaceSize rest best trace1
    else bruteForceLoop env args workspaceSize rest best (trace ++ [Event.initArgs s.uid args])

/-- Modelled from the spec: the brute-force selection model of section 4.5,
whose code is not among the sources. Every candidate is validated by dry run
and, when valid, executed with timing; the fastest successfully executing
candidate wins. With no candidate, or when no candidate executes successfully,
the model returns INTERNAL_ERROR and a null winner. -/
def bruteForceModel (env : Env) (candidates : List ContractionSolution)
    (layout : ContractionLayout) (workspaceSize : Nat) : Selection :=
  let start := [Event.bruteForceModel (candidates.map fun s => s.uid) layout workspaceSize]
  match bruteForceLoop env (selectionArgs env layout) workspaceSize candidates none start with
  | (some (b, _), trace) => ⟨HIPTENSOR_STATUS_SUCCESS, some b, trace⟩
  | (none, trace) => ⟨HIPTENSOR_STATUS_INTERNAL_ERROR, none, trace⟩

/-- Modelled from the spec: the top-scoring candidate under the predictor of
section 4.5, the first seen on a tie. -/
def topScoring (score : ContractionSolution → Nat) :
    List ContractionSolution → Option ContractionSolution → Option ContractionSolution
  | [], best => best
  | s :: rest, none => topScoring score rest (some s)
  | s :: rest, some b =>
    if score b < score s then topScoring score rest (some s)
    else topScoring score rest (some b)

/-- Modelled from the spec: the actor-critic selection model of section 4.5,
whose code is not among the sources. Every candidate is scored by the
predictor on the shape, stride and mode metadata it is given, without being
executed, and the top-scoring one wins. With no candidate the model returns
INTERNAL_ERROR and a null winner. -/
def actorCriticModel (env : Env) (candidates : List ContractionSolution)
    (layout : ContractionLayout) (workspaceSize : Nat) : Selection :=
  let trace := [Event.actorCriticModel (candidates.map fun s => s.uid) layout workspaceSize]
  match topScoring (env.predictor layout) candidates none with
  | some b => ⟨HIPTENSOR_STATUS_SUCCESS, some b, trace⟩
  | none => ⟨HIPTENSOR_STATUS_INTERNAL_ERROR, none, trace⟩

/-! ## hiptensorInitContractionPlan -/

/-- The narrowing of the find's candidates at the head of plan construction:
by the descriptor's operation id, then by the data types of `mTensorDesc[0]`
to `mTensorDesc[3]` and the compute type. The source rebuilds the candidate
vector from the query's map, whose iteration order is unspecified and whose
keys are unique; the embedding keeps the find's order and multiplicity, which
bears on which of several equally good candidates a model meets first and on
nothing else. -/
def planCandidates (desc : hiptensorContractionDescriptor_t)
    (find : hiptensorContractionFind_t) : Option (List ContractionSolution) :=
  desc.mTensorDesc[0]?.bind fun t0 =>
  desc.mTensorDesc[1]?.bind fun t1 =>
  desc.mTensorDesc[2]?.bind fun t2 =>
  desc.mTensorDesc[3]?.bind fun t3 =>
  some (queryTypes (queryOpId find.mCandidates desc.mContractionOpId)
    t0.mType t1.mType t2.mType t3.mType desc.mComputeType)

/-- The step "launch selection algorithm": `winner` starts null and `result`
starts as INTERNAL_ERROR; the brute-force model runs for DEFAULT and
DEFAULT_PATIENT, the actor-critic model for ACTOR_CRITIC, and no model for any
other stored algorithm. The descriptor's layouts are read only where a model
is called. -/
def launchSelection (env : Env) (algo : hiptensorAlgo_t)
    (candidates : List ContractionSolution) (desc : hiptensorContractionDescriptor_t)
    (workspaceSize : Nat) : Option Selection :=
  if algo = HIPTENSOR_ALGO_DEFAULT || algo = HIPTENSOR_ALGO_DEFAULT_PATIENT then
    (contractionLayout desc).map fun layout =>
      bruteForceModel env candidates layout workspaceSize
  else if algo = HIPTENSOR_ALGO_ACTOR_CRITIC then
    (contractionLayout desc).map fun layout =>
      actorCriticModel env candidates layout workspaceSize
  else
    some ⟨HIPTENSOR_STATUS_INTERNAL_ERROR, none, []⟩

/-- The entry point `hiptensorInitContractionPlan`. The output is the pointee
of `plan` after the call. The HIP event calls that bracket the selection are
recorded; they are taken to succeed. -/
def hiptensorInitContractionPlan (env : Env)
    (handle : Option hiptensorHandle_t)
    (plan : Option hiptensorContractionPlan_t)
    (desc : Option hiptensorContractionDescriptor_t)
    (find : Option hiptensorContractionFind_t)
    (workspaceSize : Nat) : Option (Outcome (Option hiptensorContractionPlan_t)) :=
  let api := Api.InitContractionPlan
  match handle, plan, desc, find with
  | some h, some _, some d, some f =>
    if env.currentDeviceId != h.deviceId then
      some ⟨HIPTENSOR_STATUS_ARCH_MISMATCH, plan,
        [Event.logAPITrace api, Event.logError api HIPTENSOR_STATUS_ARCH_MISMATCH]⟩
    else
      (planCandidates d f).bind fun candidates =>
      (launchSelection env f.mSelectionAlgorithm candidates d workspaceSize).bind fun sel =>
      let trace := [Event.logAPITrace api, Event.hipEventCreate, Event.hipEventCreate,
          Event.hipEventRecord] ++ sel.trace ++
        [Event.hipEventRecord, Event.hipEventSynchronize, Event.hipEventElapsedTime,
          Event.hipEventDestroy, Event.hipEventDestroy]
      if sel.status != HIPTENSOR_STATUS_SUCCESS then
        some ⟨sel.status, plan, trace ++ [Event.logError api sel.status]⟩
      else
        -- the selection log reads through the winner
        sel.winner.bind fun winner =>
          some ⟨HIPTENSOR_STATUS_SUCCESS,
            some { mContractionDesc := d, mSolution := some winner },
            trace ++ [Event.logSelection f.mSelectionAlgorithm winner.uid]⟩
  | _, _, _, _ =>
    some ⟨HIPTENSOR_STATUS_NOT_INITIALIZED, plan,
      [Event.logAPITrace api, Event.logError api HIPTENSOR_STATUS_NOT_INITIALIZED]⟩

/-! ## hiptensorContraction -/

/-- The FLOP count of the performance trace, `std::size_t(2) * m * n * k`:
each `int32_t` operand is converted to the 64-bit unsigned type and the
products are taken modulo `2 ^ 64`. -/
def contractionFlops (m n k : Int) : Nat :=
  let toSize (x : Int) : Nat := (x % (2 ^ 64 : Int)).toNat
  ((((2 * toSize m) % 2 ^ 64) * toSize n) % 2 ^ 64 * toSize k) % 2 ^ 64

/-- The error log after the solution has run: only INSUFFICIENT_WORKSPACE and
INTERNAL_ERROR are logged. -/
def contractionErrorLog (errorCode : hiptensorStatus_t) : List Event :=
  if errorCode = HIPTENSOR_STATUS_INSUFFICIENT_WORKSPACE then
    [Event.logError Api.Contraction errorCode]
  else if errorCode = HIPTENSOR_STATUS_INTERNAL_ERROR then
    [Event.logError Api.Contraction errorCode]
  else []

/-- The entry point `hiptensorContraction`. The buffers are pointers (null or
an address); the contents of D are not part of the embedding. -/
def hiptensorContraction (env : Env)
    (handle : Option hiptensorHandle_t)
    (plan : Option hiptensorContractionPlan_t)
    (alpha A B beta C D : Option Nat)
    (workspace : Option Nat) (workspaceSize : Nat) (stream : Option Nat) :
    Option (Outcome Unit) :=
  let api := Api.Contraction
  match handle, plan with
  | some h, some p =>
    if alpha == none || A == none || B == none || D == none then
      some ⟨HIPTENSOR_STATUS_INVALID_VALUE, (),
        [Event.logAPITrace api, Event.logError api HIPTENSOR_STATUS_INVALID_VALUE]⟩
    else
      match p.mSolution with
      | none =>
        some ⟨HIPTENSOR_STATUS_INTERNAL_ERROR, (),
          [Event.logAPITrace api, Event.logError api HIPTENSOR_STATUS_INTERNAL_ERROR]⟩
      | some cSolution =>
        if env.currentDeviceId != h.deviceId then
          some ⟨HIPTENSOR_STATUS_ARCH_MISMATCH, (),
            [Event.logAPITrace api, Event.logError api HIPTENSOR_STATUS_ARCH_MISMATCH]⟩
        else
          (contractionLayout p.mContractionDesc).bind fun layout =>
          let args : SolutionArgs :=
            { alpha := alpha, A := A, B := B, beta := beta, C := C, D := D
              a := layout.a, b := layout.b, c := layout.c, d := layout.d
              workspace := workspace }
          if env.perfTrace then
            -- contraction with timing
            let config : StreamConfig := ⟨stream, true, some (0, env.coldRuns, env.hotRuns)⟩
            let r := cSolution.invoke args workspaceSize config
            let dims := cSolution.problemDims args
            let metrics :=
              if r.1 = HIPTENSOR_STATUS_SUCCESS then
                [Event.logMetrics cSolution.uid r.2
                  (contractionFlops dims.1 dims.2.1 dims.2.2) (cSolution.problemBytes args)]
              else []
            some ⟨r.1, (),
              [Event.logAPITrace api, Event.invoke cSolution.uid args workspaceSize config]
                ++ metrics ++ contractionErrorLog r.1⟩
          else
            -- contraction without timing
            let config : StreamConfig := ⟨stream, false, none⟩
            let r := cSolution.invoke args workspaceSize config
            some ⟨r.1, (),
              [Event.logAPITrace api, Event.invoke cSolution.uid args workspaceSize config]
                ++ contractionErrorLog r.1⟩
  | _, _ =>
    some ⟨HIPTENSOR_STATUS_NOT_INITIALIZED, (),
      [Event.logAPITrace api, Event.logError api HIPTENSOR_STATUS_NOT_INITIALIZED]⟩

/-! ## Test-side hashing (`test/device/common.hpp`) -/

/-- The device function `pcg_hash` on `unsigned` (32-bit) values: the
multiply-add and the multiplication wrap modulo `2 ^ 32`; shifts and
exclusive-or of values below `2 ^ 32` stay below `2 ^ 32`. The input is a
32-bit value. -/
def pcg_hash (input : Nat) : Nat :=
  let state := (input * 747796405 + 2891336453) % 2 ^ 32
  let word := (((state >>> ((state >>> 28) + 4)) ^^^ state) * 277803737) % 2 ^ 32
  (word >>> 22) ^^^ word

/-! ## Concrete inputs -/

/-- A rank-2 tensor descriptor, 4 by 4, with the identity operator. -/
def sampleTensor : hiptensorTensorDescriptor_t :=
  { mType := DataType.HIP_TYPE 0, mLengths := [4, 4], mStrides := [4, 1]
    mUnaryOp := HIPTENSOR_OP_IDENTITY }

/-- The same tensor with a non-identity operator. -/
def sampleSqrtTensor : hiptensorTensorDescriptor_t :=
  { sampleTensor with mUnaryOp := HIPTENSOR_OP_OTHER 2 }

/-- A contraction descriptor before initialisation: empty vectors. -/
def emptyDescriptor : hiptensorContractionDescriptor_t :=
  { mContractionOpId := ContractionOpId_t.SCALE
    mComputeType := HIPTENSOR_COMPUTE_OTHER 4
    mTensorDesc := [], mAlignmentRequirement := [], mTensorMode := [] }

/-- The descriptor of a bilinear contraction of 4 by 4 tensors with mode
lists A = [0, 1], B = [1, 2], C = [0, 2], D = [0, 2]. -/
def sampleBilinearDescriptor : hiptensorContractionDescriptor_t :=
  { mContractionOpId := ContractionOpId_t.BILINEAR
    mComputeType := HIPTENSOR_COMPUTE_OTHER 4
    mTensorDesc := [sampleTensor, sampleTensor, sampleTensor, sampleTensor]
    mAlignmentRequirement := [16, 16, 16, 16]
    mTensorMode := [[0, 1], [1, 2], [0, 2], [0, 2]] }

/-- The descriptor of the scale contraction of the same tensors (no C). -/
def sampleScaleDescriptor : hiptensorContractionDescriptor_t :=
  { mContractionOpId := ContractionOpId_t.SCALE
    mComputeType := HIPTENSOR_COMPUTE_OTHER 4
    mTensorDesc := [sampleTensor, sampleTensor, scalePlaceholder sampleTensor, sampleTensor]
    mAlignmentRequirement := [16, 16, 0, 16]
    mTensorMode := [[0, 1], [1, 2], [0, 2]] }

/-- The layouts read from the bilinear sample descriptor. -/
def sampleBilinearLayout : ContractionLayout :=
  { a := ⟨[4, 4], [4, 1], [0, 1]⟩, b := ⟨[4, 4], [4, 1], [1, 2]⟩
    c := ⟨[4, 4], [4, 1], [0, 2]⟩, d := ⟨[4, 4], [4, 1], [0, 2]⟩ }

/-- The layouts read from the scale sample descriptor: the C slot is the
zero-filled placeholder. -/
def sampleLayout : ContractionLayout :=
  { a := ⟨[4, 4], [4, 1], [0, 1]⟩, b := ⟨[4, 4], [4, 1], [1, 2]⟩
    c := ⟨[0, 0], [0, 0], [0, 2]⟩, d := ⟨[4, 4], [4, 1], [0, 2]⟩ }

/-- A solution whose behaviour does not depend on its arguments: it validates
or not, reports a fixed workspace size and returns a fixed status. -/
def constSolution (uid : Nat) (opId : ContractionOpId_t) (valid : Bool) (size : Nat)
    (status : hiptensorStatus_t) : ContractionSolution :=
  { uid := uid, opId := opId
    typeA := DataType.HIP_TYPE 0, typeB := DataType.HIP_TYPE 0
    typeC := DataType.HIP_TYPE 0, typeD := DataType.HIP_TYPE 0
    typeCompute := HIPTENSOR_COMPUTE_OTHER 4
    initArgs := fun _ => valid
    workspaceSize := fun _ => size
    invoke := fun _ _ _ => (status, 1)
    problemDims := fun _ => (4, 4, 4)
    problemBytes := fun _ => 192 }

/-- An environment with the given active device, performance tracing off and
the given registry contents, each solution keyed by its uid. -/
def sampleEnv (currentDeviceId : Int) (registry : List ContractionSolution) : Env :=
  { currentDeviceId := currentDeviceId, perfTrace := false, coldRuns := 1, hotRuns := 5
    allSolutions := registry.map fun s => (s.uid, s)
    selectionBuffers :=
      { alpha := some 1, A := some 2, B := some 3, beta := some 4, C := some 5, D := some 6
        a := sampleLayout.a, b := sampleLayout.b, c := sampleLayout.c, d := sampleLayout.d
        workspace := some 7 }
    predictor := fun _ s => s.uid }

/-- The outcome of building the bilinear sample descriptor with the complex
single-precision compute type. -/
def sampleComplexOutcome : Outcome (Option hiptensorContractionDescriptor_t) :=
  { status := HIPTENSOR_STATUS_SUCCESS
    out := some { sampleBilinearDescriptor with
      mContractionOpId := ContractionOpId_t.BILINEAR_COMPLEX
      mComputeType := HIPTENSOR_COMPUTE_C32F }
    trace := [Event.logAPITrace Api.InitContractionDescriptor] }

/-- A plan for the bilinear sample descriptor, bound to a solution that
returns SUCCESS. -/
def sampleBilinearPlan : hiptensorContractionPlan_t :=
  { mContractionDesc := sampleBilinearDescriptor
    mSolution := some (constSolution 1 ContractionOpId_t.BILINEAR true 0
      HIPTENSOR_STATUS_SUCCESS) }

/-- A plan for the scale sample descriptor, bound to a solution that returns
SUCCESS. -/
def sampleScalePlan : hiptensorContractionPlan_t :=
  { mContractionDesc := sampleScaleDescriptor
    mSolution := some (constSolution 2 ContractionOpId_t.SCALE true 0
      HIPTENSOR_STATUS_SUCCESS) }

/-- A plan that has not been bound to a solution. -/
def unboundPlan : hiptensorContractionPlan_t :=
  { mContractionDesc := emptyDescriptor, mSolution := none }

/-- The sample environment with performance tracing on. -/
def samplePerfEnv (currentDeviceId : Int) : Env :=
  { sampleEnv currentDeviceId [] with perfTrace := true }

/-- A bilinear descriptor whose stored mode list for D, [2, 0], differs from
the one for C, [0, 2]. -/
def sampleTransposedDescriptor : hiptensorContractionDescriptor_t :=
  { sampleBilinearDescriptor with mTensorMode := [[0, 1], [1, 2], [0, 2], [2, 0]] }

/-! ## The workspace loop as a fold -/

/-- The value the candidate loop leaves in `*workspaceSize`, as a fold over
the candidates. -/
def workspaceValue (pref : hiptensorWorksizePreference_t) (args : SolutionArgs)
    (candidates : List ContractionSolution) (workspaceSize : Nat) : Nat :=
  candidates.foldl
    (fun w s => if s.initArgs args then workspaceUpdate pref w (s.workspaceSize args) else w)
    workspaceSize

/-- On a descriptor whose layouts can be read, the candidate loop ends with the
fold's value and has made one `initArgs` call per candidate, in order. -/
theorem workspaceLoop_eq (desc : hiptensorContractionDescriptor_t)
    (pref : hiptensorWorksizePreference_t) (layout : ContractionLayout)
    (hlayout : contractionLayout desc = some layout) (candidates : List ContractionSolution) :
    ∀ (w : Nat) (trace : List Event),
      workspaceLoop desc pref candidates w trace =
        some (workspaceValue pref (dryRunArgs layout) candidates w,
          trace ++ candidates.map fun s => Event.initArgs s.uid (dryRunArgs layout)) := by
  induction candidates with
  | nil => intro w trace; simp [workspaceLoop, workspaceValue]
  | cons s rest ih =>
    intro w trace
    by_cases hv : s.initArgs (dryRunArgs layout) = true
    · simp [workspaceLoop, workspaceValue, hlayout, hv, ih]
    · simp [workspaceLoop, workspaceValue, hlayout, hv, ih]

/-- With non-null arguments and a readable descriptor the entry point returns
SUCCESS, the fold's value from 0, and the API trace followed by one `initArgs`
call per candidate. -/
theorem getWorkspaceSize_eq (h : hiptensorHandle_t) (d : hiptensorContractionDescriptor_t)
    (f : hiptensorContractionFind_t) (pref : hiptensorWorksizePreference_t) (w0 : Nat)
    (layout : ContractionLayout) (hlayout : contractionLayout d = some layout) :
    hiptensorContractionGetWorkspaceSize (some h) (some d) (some f) pref (some w0) =
      some ⟨HIPTENSOR_STATUS_SUCCESS,
        some (workspaceValue pref (dryRunArgs layout) f.mCandidates 0),
        Event.logAPITrace Api.ContractionGetWorkspaceSize ::
          f.mCandidates.map fun s => Event.initArgs s.uid (dryRunArgs layout)⟩ := by
  simp [hiptensorContractionGetWorkspaceSize, workspaceLoop_eq d pref layout hlayout]

/-- The MIN fold never exceeds the MAX fold when it starts no higher. -/
theorem workspaceValue_min_le_max (args : SolutionArgs) (candidates : List ContractionSolution) :
    ∀ a b : Nat, a ≤ b →
      workspaceValue HIPTENSOR_WORKSPACE_MIN args candidates a ≤
        workspaceValue HIPTENSOR_WORKSPACE_MAX args candidates b := by
  induction candidates with
  | nil => intro a b hab; simpa [workspaceValue] using hab
  | cons s rest ih =>
    intro a b hab
    simp only [workspaceValue, List.foldl_cons]
    by_cases hv : s.initArgs args = true
    · simp only [hv, if_true]
      apply ih
      unfold workspaceUpdate
      split_ifs <;> simp_all
    · simp only [hv]
      exact ih a b hab

/-- The MAX fold never falls below its starting value. -/
theorem workspaceValue_max_ge_start (args : SolutionArgs) (candidates : List ContractionSolution) :
    ∀ w : Nat, w ≤ workspaceValue HIPTENSOR_WORKSPACE_MAX args candidates w := by
  induction candidates with
  | nil => intro w; simp [workspaceValue]
  | cons s rest ih =>
    intro w
    simp only [workspaceValue, List.foldl_cons]
    by_cases hv : s.initArgs args = true
    · simp only [hv, if_true]
      refine le_trans ?_ (ih _)
      unfold workspaceUpdate
      split_ifs <;> simp_all
    · simp only [hv]
      exact ih w

/-- The MAX fold bounds the size of every validating candidate. -/
theorem workspaceValue_max_ge (args : SolutionArgs) (candidates : List ContractionSolution) :
    ∀ w : Nat, ∀ s ∈ candidates, s.initArgs args = true →
      s.workspaceSize args ≤ workspaceValue HIPTENSOR_WORKSPACE_MAX args candidates w := by
  induction candidates with
  | nil => intro w s hs; simp at hs
  | cons c rest ih =>
    intro w s hs hvs
    simp only [workspaceValue, List.foldl_cons]
    rcases List.mem_cons.mp hs with rfl | hs
    · simp only [hvs, if_true]
      refine le_trans ?_ (workspaceValue_max_ge_start args rest _)
      unfold workspaceUpdate
      split_ifs <;> simp_all
    · exact ih _ s hs hvs

/-- The MAX fold ends on its starting value or on the size of a validating
candidate. -/
theorem workspaceValue_max_mem (args : SolutionArgs) (candidates : List ContractionSolution) :
    ∀ w : Nat, workspaceValue HIPTENSOR_WORKSPACE_MAX args candidates w = w ∨
      ∃ s ∈ candidates, s.initArgs args = true ∧
        s.workspaceSize args = workspaceValue HIPTENSOR_WORKSPACE_MAX args candidates w := by
  induction candidates with
  | nil => intro w; simp [workspaceValue]
  | cons c rest ih =>
    intro w
    simp only [workspaceValue, List.foldl_cons]
    by_cases hv : c.initArgs args = true
    · simp only [hv, if_true]
      rcases ih (workspaceUpdate HIPTENSOR_WORKSPACE_MAX w (c.workspaceSize args)) with h | h
      · simp only [workspaceValue] at h
        rw [h]
        unfold workspaceUpdate
        split_ifs with h0 h1
        · exact Or.inr ⟨c, List.mem_cons_self _ _, hv, rfl⟩
        · simp at h1
        · rcases le_total w (c.workspaceSize args) with hle | hle
          · exact Or.inr ⟨c, List.mem_cons_self _ _, hv, (max_eq_right hle).symm⟩
          · exact Or.inl (max_eq_left hle)
      · obtain ⟨s, hs, hvs, heq⟩ := h
        exact Or.inr ⟨s, List.mem_cons_of_mem _ hs, hvs, heq⟩
    · simp only [hv]
      rcases ih w with h | h
      · exact Or.inl h
      · obtain ⟨s, hs, hvs, heq⟩ := h
        exact Or.inr ⟨s, List.mem_cons_of_mem _ hs, hvs, heq⟩

/-- When no candidate validates the fold keeps its starting value. -/
theorem workspaceValue_none_valid (pref : hiptensorWorksizePreference_t) (args : SolutionArgs)
    (candidates : List ContractionSolution)
    (hnone : ∀ s ∈ candidates, s.initArgs args = false) :
    ∀ w : Nat, workspaceValue pref args candidates w = w := by
  induction candidates with
  | nil => intro w; simp [workspaceValue]
  | cons c rest ih =>
    intro w
    have hc : c.initArgs args = false := hnone c (List.mem_cons_self _ _)
    simp only [workspaceValue, List.foldl_cons, hc]
    exact ih (fun s hs => hnone s (List.mem_cons_of_mem _ hs)) w

/-! ## Descriptor construction -/

/-- C1: on every successful call of `hiptensorInitContractionDescriptor` the
stored kind is BILINEAR or BILINEAR_COMPLEX exactly when both `descC` and
`modeC` are non-null, SCALE or SCALE_COMPLEX exactly when one of them is null,
and carries the COMPLEX suffix exactly when `typeCompute` is
HIPTENSOR_COMPUTE_C32F or HIPTENSOR_COMPUTE_C64F. -/
theorem initContractionDescriptor_kind
    (handle : Option hiptensorHandle_t) (desc : Option hiptensorContractionDescriptor_t)
    (descA : Option hiptensorTensorDescriptor_t) (modeA : Option (List Int)) (alignA : Nat)
    (descB : Option hiptensorTensorDescriptor_t) (modeB : Option (List Int)) (alignB : Nat)
    (descC : Option hiptensorTensorDescriptor_t) (modeC : Option (List Int)) (alignC : Nat)
    (descD : Option hiptensorTensorDescriptor_t) (modeD : Option (List Int)) (alignD : Nat)
    (typeCompute : hiptensorComputeType_t)
    (r : Outcome (Option hiptensorContractionDescriptor_t))
    (hcall : hiptensorInitContractionDescriptor handle desc descA modeA alignA descB modeB alignB
      descC modeC alignC descD modeD alignD typeCompute = some r)
    (hok : r.status = HIPTENSOR_STATUS_SUCCESS) :
    ∃ d, r.out = some d ∧
      ((d.mContractionOpId = ContractionOpId_t.BILINEAR ∨
          d.mContractionOpId = ContractionOpId_t.BILINEAR_COMPLEX) ↔
        (descC ≠ none ∧ modeC ≠ none)) ∧
      ((d.mContractionOpId = ContractionOpId_t.SCALE ∨
          d.mContractionOpId = ContractionOpId_t.SCALE_COMPLEX) ↔
        (descC = none ∨ modeC = none)) ∧
      ((d.mContractionOpId = ContractionOpId_t.SCALE_COMPLEX ∨
          d.mContractionOpId = ContractionOpId_t.BILINEAR_COMPLEX) ↔
        (typeCompute = HIPTENSOR_COMPUTE_C32F ∨ typeCompute = HIPTENSOR_COMPUTE_C64F)) := by
  unfold hiptensorInitContractionDescriptor at hcall
  split at hcall
  · split at hcall
    · simp at hcall; subst hcall; simp at hok
    · split at hcall
      · simp only [Option.bind_eq_some] at hcall
        obtain ⟨mA, -, mB, -, mC, -, mD, -, h⟩ := hcall
        simp at h; subst h
        refine ⟨_, rfl, ?_⟩
        cases typeCompute <;> simp [isComplexCompute]
      · rename_i hC
        simp only [Option.bind_eq_some] at hcall
        obtain ⟨mA, -, mB, -, mD, -, h⟩ := hcall
        simp at h; subst h
        refine ⟨_, rfl, ?_⟩
        have hC2 : descC = none ∨ modeC = none := by
          cases descC <;> cases modeC <;> simp_all
        cases typeCompute <;> simp [isComplexCompute, hC2] <;> tauto
  · simp at hcall; subst hcall; simp at hok

/-- Witness for C1: the bilinear call on the sample tensors with a complex
compute type succeeds and stores BILINEAR_COMPLEX. -/
theorem initContractionDescriptor_kind_witness :
    hiptensorInitContractionDescriptor (some ⟨0⟩) (some emptyDescriptor)
        (some sampleTensor) (some [0, 1]) 16 (some sampleTensor) (some [1, 2]) 16
        (some sampleTensor) (some [0, 2]) 16 (some sampleTensor) (some [0, 2]) 16
        HIPTENSOR_COMPUTE_C32F = some sampleComplexOutcome ∧
    sampleComplexOutcome.status = HIPTENSOR_STATUS_SUCCESS ∧
    ∃ d, sampleComplexOutcome.out = some d ∧
      ((d.mContractionOpId = ContractionOpId_t.BILINEAR ∨
          d.mContractionOpId = ContractionOpId_t.BILINEAR_COMPLEX) ↔
        (some sampleTensor ≠ none ∧ some ([0, 2] : List Int) ≠ none)) ∧
      ((d.mContractionOpId = ContractionOpId_t.SCALE ∨
          d.mContractionOpId = ContractionOpId_t.SCALE_COMPLEX) ↔
        (some sampleTensor = none ∨ some ([0, 2] : List Int) = none)) ∧
      ((d.mContractionOpId = ContractionOpId_t.SCALE_COMPLEX ∨
          d.mContractionOpId = ContractionOpId_t.BILINEAR_COMPLEX) ↔
        (HIPTENSOR_COMPUTE_C32F = HIPTENSOR_COMPUTE_C32F ∨
          HIPTENSOR_COMPUTE_C32F = HIPTENSOR_COMPUTE_C64F)) :=
  ⟨rfl, rfl,
    initContractionDescriptor_kind (some ⟨0⟩) (some emptyDescriptor)
      (some sampleTensor) (some [0, 1]) 16 (some sampleTensor) (some [1, 2]) 16
      (some sampleTensor) (some [0, 2]) 16 (some sampleTensor) (some [0, 2]) 16
      HIPTENSOR_COMPUTE_C32F sampleComplexOutcome rfl rfl⟩

/-- C2: with non-null handle, desc, descA, descB and descD, a non-identity
unary operator on A, B, D or on a non-null C makes
`hiptensorInitContractionDescriptor` return NOT_SUPPORTED and leave `*desc` as
it was; nothing but the logger is called. -/
theorem initContractionDescriptor_non_identity
    (h : hiptensorHandle_t) (d : hiptensorContractionDescriptor_t)
    (dA : hiptensorTensorDescriptor_t) (modeA : Option (List Int)) (alignA : Nat)
    (dB : hiptensorTensorDescriptor_t) (modeB : Option (List Int)) (alignB : Nat)
    (descC : Option hiptensorTensorDescriptor_t) (modeC : Option (List Int)) (alignC : Nat)
    (dD : hiptensorTensorDescriptor_t) (modeD : Option (List Int)) (alignD : Nat)
    (typeCompute : hiptensorComputeType_t)
    (hop : dA.mUnaryOp ≠ HIPTENSOR_OP_IDENTITY ∨ dB.mUnaryOp ≠ HIPTENSOR_OP_IDENTITY ∨
      dD.mUnaryOp ≠ HIPTENSOR_OP_IDENTITY ∨
      ∃ dC, descC = some dC ∧ dC.mUnaryOp ≠ HIPTENSOR_OP_IDENTITY) :
    hiptensorInitContractionDescriptor (some h) (some d) (some dA) modeA alignA
        (some dB) modeB alignB descC modeC alignC (some dD) modeD alignD typeCompute =
      some ⟨HIPTENSOR_STATUS_NOT_SUPPORTED, some d,
        [Event.logAPITrace Api.InitContractionDescriptor,
         Event.logError Api.InitContractionDescriptor HIPTENSOR_STATUS_NOT_SUPPORTED]⟩ := by
  have hcond : (dA.mUnaryOp != HIPTENSOR_OP_IDENTITY || dB.mUnaryOp != HIPTENSOR_OP_IDENTITY
      || dD.mUnaryOp != HIPTENSOR_OP_IDENTITY || descCNonIdentity descC) = true := by
    rcases hop with hA | hB | hD | ⟨dC, rfl, hC⟩
    · simp [hA]
    · simp [hB]
    · simp [hD]
    · simp [descCNonIdentity, hC]
  simp only [hiptensorInitContractionDescriptor, hcond, if_true]

/-- Witness for C2: a non-identity operator on the non-null C descriptor
alone, over a descriptor that already holds a value. -/
theorem initContractionDescriptor_non_identity_witness :
    hiptensorInitContractionDescriptor (some ⟨0⟩) (some sampleScaleDescriptor)
        (some sampleTensor) (some [0, 1]) 16 (some sampleTensor) (some [1, 2]) 16
        (some sampleSqrtTensor) (some [0, 2]) 16 (some sampleTensor) (some [0, 2]) 16
        (HIPTENSOR_COMPUTE_OTHER 4) =
      some ⟨HIPTENSOR_STATUS_NOT_SUPPORTED, some sampleScaleDescriptor,
        [Event.logAPITrace Api.InitContractionDescriptor,
         Event.logError Api.InitContractionDescriptor HIPTENSOR_STATUS_NOT_SUPPORTED]⟩ :=
  initContractionDescriptor_non_identity ⟨0⟩ sampleScaleDescriptor
    sampleTensor (some [0, 1]) 16 sampleTensor (some [1, 2]) 16
    (some sampleSqrtTensor) (some [0, 2]) 16 sampleTensor (some [0, 2]) 16
    (HIPTENSOR_COMPUTE_OTHER 4)
    (Or.inr (Or.inr (Or.inr ⟨sampleSqrtTensor, rfl, by decide⟩)))

/-! ## Workspace negotiation -/

/-- C3: for the same non-null handle, descriptor and find, the size
`hiptensorContractionGetWorkspaceSize` writes with preference MIN is at most
the size it writes with preference MAX; both calls succeed. -/
theorem getWorkspaceSize_min_le_max (h : hiptensorHandle_t)
    (d : hiptensorContractionDescriptor_t) (f : hiptensorContractionFind_t) (w0 : Nat)
    (layout : ContractionLayout) (hlayout : contractionLayout d = some layout) :
    ∃ wmin wmax trace,
      hiptensorContractionGetWorkspaceSize (some h) (some d) (some f)
          HIPTENSOR_WORKSPACE_MIN (some w0) =
        some ⟨HIPTENSOR_STATUS_SUCCESS, some wmin, trace⟩ ∧
      hiptensorContractionGetWorkspaceSize (some h) (some d) (some f)
          HIPTENSOR_WORKSPACE_MAX (some w0) =
        some ⟨HIPTENSOR_STATUS_SUCCESS, some wmax, trace⟩ ∧
      wmin ≤ wmax :=
  ⟨_, _, _, getWorkspaceSize_eq h d f _ w0 layout hlayout,
    getWorkspaceSize_eq h d f _ w0 layout hlayout,
    workspaceValue_min_le_max (dryRunArgs layout) f.mCandidates 0 0 (le_refl 0)⟩

/-- Witness for C3: three validating candidates of sizes 5, 0 and 7 on the
sample scale descriptor. -/
theorem getWorkspaceSize_min_le_max_witness :
    contractionLayout sampleScaleDescriptor = some sampleLayout ∧
    ∃ wmin wmax trace,
      hiptensorContractionGetWorkspaceSize (some ⟨0⟩) (some sampleScaleDescriptor)
          (some ⟨HIPTENSOR_ALGO_DEFAULT,
            [constSolution 1 ContractionOpId_t.SCALE true 5 HIPTENSOR_STATUS_SUCCESS,
             constSolution 2 ContractionOpId_t.SCALE true 0 HIPTENSOR_STATUS_SUCCESS,
             constSolution 3 ContractionOpId_t.SCALE true 7 HIPTENSOR_STATUS_SUCCESS]⟩)
          HIPTENSOR_WORKSPACE_MIN (some 99) =
        some ⟨HIPTENSOR_STATUS_SUCCESS, some wmin, trace⟩ ∧
      hiptensorContractionGetWorkspaceSize (some ⟨0⟩) (some sampleScaleDescriptor)
          (some ⟨HIPTENSOR_ALGO_DEFAULT,
            [constSolution 1 ContractionOpId_t.SCALE true 5 HIPTENSOR_STATUS_SUCCESS,
             constSolution 2 ContractionOpId_t.SCALE true 0 HIPTENSOR_STATUS_SUCCESS,
             constSolution 3 ContractionOpId_t.SCALE true 7 HIPTENSOR_STATUS_SUCCESS]⟩)
          HIPTENSOR_WORKSPACE_MAX (some 99) =
        some ⟨HIPTENSOR_STATUS_SUCCESS, some wmax, trace⟩ ∧
      wmin ≤ wmax :=
  ⟨rfl, getWorkspaceSize_min_le_max ⟨0⟩ sampleScaleDescriptor _ 99 sampleLayout rfl⟩

/-- C4 (evaluation of the code): with preference MIN and two validating
candidates of sizes 0 and 5, in that order, the call writes 5, not the minimum
0; with the same candidates in the other order it writes 0. -/
theorem getWorkspaceSize_min_zero_first :
    (hiptensorContractionGetWorkspaceSize (some ⟨0⟩) (some sampleScaleDescriptor)
        (some ⟨HIPTENSOR_ALGO_DEFAULT,
          [constSolution 1 ContractionOpId_t.SCALE true 0 HIPTENSOR_STATUS_SUCCESS,
           constSolution 2 ContractionOpId_t.SCALE true 5 HIPTENSOR_STATUS_SUCCESS]⟩)
        HIPTENSOR_WORKSPACE_MIN (some 0)).map (fun r => (r.status, r.out)) =
      some (HIPTENSOR_STATUS_SUCCESS, some 5) ∧
    (hiptensorContractionGetWorkspaceSize (some ⟨0⟩) (some sampleScaleDescriptor)
        (some ⟨HIPTENSOR_ALGO_DEFAULT,
          [constSolution 2 ContractionOpId_t.SCALE true 5 HIPTENSOR_STATUS_SUCCESS,
           constSolution 1 ContractionOpId_t.SCALE true 0 HIPTENSOR_STATUS_SUCCESS]⟩)
        HIPTENSOR_WORKSPACE_MIN (some 0)).map (fun r => (r.status, r.out)) =
      some (HIPTENSOR_STATUS_SUCCESS, some 0) :=
  ⟨rfl, rfl⟩

/-- C5: with preference MAX, non-null arguments and at least one validating
candidate, `hiptensorContractionGetWorkspaceSize` succeeds and writes the
maximum of `workspaceSize()` over the validating candidates: the written value
is the size of a validating candidate and no validating candidate has a larger
size. -/
theorem getWorkspaceSize_max (h : hiptensorHandle_t)
    (d : hiptensorContractionDescriptor_t) (f : hiptensorContractionFind_t) (w0 : Nat)
    (layout : ContractionLayout) (hlayout : contractionLayout d = some layout)
    (hvalid : ∃ s ∈ f.mCandidates, s.initArgs (dryRunArgs layout) = true) :
    ∃ w trace,
      hiptensorContractionGetWorkspaceSize (some h) (some d) (some f)
          HIPTENSOR_WORKSPACE_MAX (some w0) =
        some ⟨HIPTENSOR_STATUS_SUCCESS, some w, trace⟩ ∧
      (∃ s ∈ f.mCandidates, s.initArgs (dryRunArgs layout) = true ∧
        s.workspaceSize (dryRunArgs layout) = w) ∧
      (∀ s ∈ f.mCandidates, s.initArgs (dryRunArgs layout) = true →
        s.workspaceSize (dryRunArgs layout) ≤ w) := by
  refine ⟨_, _, getWorkspaceSize_eq h d f _ w0 layout hlayout, ?_,
    workspaceValue_max_ge (dryRunArgs layout) f.mCandidates 0⟩
  rcases workspaceValue_max_mem (dryRunArgs layout) f.mCandidates 0 with h0 | hmem
  · obtain ⟨s, hs, hvs⟩ := hvalid
    have hle := workspaceValue_max_ge (dryRunArgs layout) f.mCandidates 0 s hs hvs
    exact ⟨s, hs, hvs, by omega⟩
  · exact hmem

/-- Witness for C5: validating candidates of sizes 0, 7 and 5 and one
candidate of size 100 that fails validation. -/
theorem getWorkspaceSize_max_witness :
    contractionLayout sampleScaleDescriptor = some sampleLayout ∧
    hiptensorContractionGetWorkspaceSize (some ⟨0⟩) (some sampleScaleDescriptor)
        (some ⟨HIPTENSOR_ALGO_DEFAULT,
          [constSolution 1 ContractionOpId_t.SCALE true 0 HIPTENSOR_STATUS_SUCCESS,
           constSolution 2 ContractionOpId_t.SCALE true 7 HIPTENSOR_STATUS_SUCCESS,
           constSolution 3 ContractionOpId_t.SCALE false 100 HIPTENSOR_STATUS_SUCCESS,
           constSolution 4 ContractionOpId_t.SCALE true 5 HIPTENSOR_STATUS_SUCCESS]⟩)
        HIPTENSOR_WORKSPACE_MAX (some 99) =
      some ⟨HIPTENSOR_STATUS_SUCCESS, some 7,
        [Event.logAPITrace Api.ContractionGetWorkspaceSize,
         Event.initArgs 1 (dryRunArgs sampleLayout), Event.initArgs 2 (dryRunArgs sampleLayout),
         Event.initArgs 3 (dryRunArgs sampleLayout),
         Event.initArgs 4 (dryRunArgs sampleLayout)]⟩ ∧
    ∃ w trace,
      hiptensorContractionGetWorkspaceSize (some ⟨0⟩) (some sampleScaleDescriptor)
          (some ⟨HIPTENSOR_ALGO_DEFAULT,
            [constSolution 1 ContractionOpId_t.SCALE true 0 HIPTENSOR_STATUS_SUCCESS,
             constSolution 2 ContractionOpId_t.SCALE true 7 HIPTENSOR_STATUS_SUCCESS,
             constSolution 3 ContractionOpId_t.SCALE false 100 HIPTENSOR_STATUS_SUCCESS,
             constSolution 4 ContractionOpId_t.SCALE true 5 HIPTENSOR_STATUS_SUCCESS]⟩)
          HIPTENSOR_WORKSPACE_MAX (some 99) =
        some ⟨HIPTENSOR_STATUS_SUCCESS, some w, trace⟩ ∧
      (∃ s ∈ [constSolution 1 ContractionOpId_t.SCALE true 0 HIPTENSOR_STATUS_SUCCESS,
             constSolution 2 ContractionOpId_t.SCALE true 7 HIPTENSOR_STATUS_SUCCESS,
             constSolution 3 ContractionOpId_t.SCALE false 100 HIPTENSOR_STATUS_SUCCESS,
             constSolution 4 ContractionOpId_t.SCALE true 5 HIPTENSOR_STATUS_SUCCESS],
        s.initArgs (dryRunArgs sampleLayout) = true ∧
        s.workspaceSize (dryRunArgs sampleLayout) = w) ∧
      (∀ s ∈ [constSolution 1 ContractionOpId_t.SCALE true 0 HIPTENSOR_STATUS_SUCCESS,
             constSolution 2 ContractionOpId_t.SCALE true 7 HIPTENSOR_STATUS_SUCCESS,
             constSolution 3 ContractionOpId_t.SCALE false 100 HIPTENSOR_STATUS_SUCCESS,
             constSolution 4 ContractionOpId_t.SCALE true 5 HIPTENSOR_STATUS_SUCCESS],
        s.initArgs (dryRunArgs sampleLayout) = true →
        s.workspaceSize (dryRunArgs sampleLayout) ≤ w) :=
  ⟨rfl, rfl,
    getWorkspaceSize_max ⟨0⟩ sampleScaleDescriptor _ 99 sampleLayout rfl
      ⟨constSolution 1 ContractionOpId_t.SCALE true 0 HIPTENSOR_STATUS_SUCCESS,
        List.mem_cons_self _ _, rfl⟩⟩

/-- C6: with non-null arguments, when no candidate validates (in particular
when the candidate list is empty) `hiptensorContractionGetWorkspaceSize`
returns SUCCESS and writes 0 for either preference, whatever `*workspaceSize`
held before the call. -/
theorem getWorkspaceSize_none_valid (h : hiptensorHandle_t)
    (d : hiptensorContractionDescriptor_t) (f : hiptensorContractionFind_t)
    (pref : hiptensorWorksizePreference_t) (w0 : Nat)
    (layout : ContractionLayout) (hlayout : contractionLayout d = some layout)
    (hnone : ∀ s ∈ f.mCandidates, s.initArgs (dryRunArgs layout) = false) :
    hiptensorContractionGetWorkspaceSize (some h) (some d) (some f) pref (some w0) =
      some ⟨HIPTENSOR_STATUS_SUCCESS, some 0,
        Event.logAPITrace Api.ContractionGetWorkspaceSize ::
          f.mCandidates.map fun s => Event.initArgs s.uid (dryRunArgs layout)⟩ := by
  rw [getWorkspaceSize_eq h d f pref w0 layout hlayout,
    workspaceValue_none_valid pref (dryRunArgs layout) f.mCandidates hnone 0]

/-- Witness for C6: one candidate that fails validation, a stale value 99 in
`*workspaceSize`, preference MIN. -/
theorem getWorkspaceSize_none_valid_witness :
    contractionLayout sampleScaleDescriptor = some sampleLayout ∧
    hiptensorContractionGetWorkspaceSize (some ⟨0⟩) (some sampleScaleDescriptor)
        (some ⟨HIPTENSOR_ALGO_DEFAULT,
          [constSolution 3 ContractionOpId_t.SCALE false 100 HIPTENSOR_STATUS_SUCCESS]⟩)
        HIPTENSOR_WORKSPACE_MIN (some 99) =
      some ⟨HIPTENSOR_STATUS_SUCCESS, some 0,
        [Event.logAPITrace Api.ContractionGetWorkspaceSize,
         Event.initArgs 3 (dryRunArgs sampleLayout)]⟩ :=
  ⟨rfl,
    getWorkspaceSize_none_valid ⟨0⟩ sampleScaleDescriptor
      ⟨HIPTENSOR_ALGO_DEFAULT,
        [constSolution 3 ContractionOpId_t.SCALE false 100 HIPTENSOR_STATUS_SUCCESS]⟩
      HIPTENSOR_WORKSPACE_MIN 99 sampleLayout rfl
      (by intro s hs; rw [List.mem_singleton] at hs; subst hs; rfl)⟩

/-! ## Device affinity -/

/-- C7 (counterexample): with a handle bound to device 0 while device 1 is
active, `hiptensorInitContractionDescriptor` and
`hiptensorContractionGetWorkspaceSize` on otherwise valid arguments both
return SUCCESS, not ARCH_MISMATCH, and the latter runs the dry-run validation
of its candidate. -/
theorem arch_mismatch_unchecked_entry_points :
    (sampleEnv 1 []).currentDeviceId ≠ (⟨0⟩ : hiptensorHandle_t).deviceId ∧
    (hiptensorInitContractionDescriptor (some ⟨0⟩) (some emptyDescriptor)
        (some sampleTensor) (some [0, 1]) 16 (some sampleTensor) (some [1, 2]) 16
        none none 0 (some sampleTensor) (some [0, 2]) 16
        (HIPTENSOR_COMPUTE_OTHER 4)).map (fun r => (r.status, r.out)) =
      some (HIPTENSOR_STATUS_SUCCESS, some sampleScaleDescriptor) ∧
    (hiptensorContractionGetWorkspaceSize (some ⟨0⟩) (some sampleScaleDescriptor)
        (some ⟨HIPTENSOR_ALGO_DEFAULT,
          [constSolution 1 ContractionOpId_t.SCALE true 8 HIPTENSOR_STATUS_SUCCESS]⟩)
        HIPTENSOR_WORKSPACE_MIN (some 0)).map (fun r => (r.status, r.out, r.trace)) =
      some (HIPTENSOR_STATUS_SUCCESS, some 8,
        [Event.logAPITrace Api.ContractionGetWorkspaceSize,
         Event.initArgs 1 (dryRunArgs sampleLayout)]) :=
  ⟨by decide, rfl, rfl⟩

/-- C7 (amended): when the handle's device differs from the active device,
`hiptensorInitContractionFind`, `hiptensorInitContractionPlan` and
`hiptensorContraction` on otherwise valid arguments return ARCH_MISMATCH,
leave their output as it was and call only the logger: no solution, selection
model or HIP runtime operation is reached.
`hiptensorInitContractionDescriptor` and
`hiptensorContractionGetWorkspaceSize` make no device comparison: their
outcome is the same for every non-null handle. -/
theorem arch_mismatch_checked_entry_points (env : Env) (h : hiptensorHandle_t)
    (hdev : env.currentDeviceId ≠ h.deviceId) :
    (∀ (f : hiptensorContractionFind_t) (algo : hiptensorAlgo_t),
      hiptensorInitContractionFind env (some h) (some f) algo =
        ⟨HIPTENSOR_STATUS_ARCH_MISMATCH, some f,
          [Event.logAPITrace Api.InitContractionFind,
           Event.logError Api.InitContractionFind HIPTENSOR_STATUS_ARCH_MISMATCH]⟩) ∧
    (∀ (p : hiptensorContractionPlan_t) (d : hiptensorContractionDescriptor_t)
        (f : hiptensorContractionFind_t) (workspaceSize : Nat),
      hiptensorInitContractionPlan env (some h) (some p) (some d) (some f) workspaceSize =
        some ⟨HIPTENSOR_STATUS_ARCH_MISMATCH, some p,
          [Event.logAPITrace Api.InitContractionPlan,
           Event.logError Api.InitContractionPlan HIPTENSOR_STATUS_ARCH_MISMATCH]⟩) ∧
    (∀ (p : hiptensorContractionPlan_t) (s : ContractionSolution) (alpha A B D : Nat)
        (beta C workspace : Option Nat) (workspaceSize : Nat) (stream : Option Nat),
      p.mSolution = some s →
      hiptensorContraction env (some h) (some p) (some alpha) (some A) (some B) beta C (some D)
          workspace workspaceSize stream =
        some ⟨HIPTENSOR_STATUS_ARCH_MISMATCH, (),
          [Event.logAPITrace Api.Contraction,
           Event.logError Api.Contraction HIPTENSOR_STATUS_ARCH_MISMATCH]⟩) ∧
    (∀ (h2 : hiptensorHandle_t) (desc : Option hiptensorContractionDescriptor_t)
        (descA : Option hiptensorTensorDescriptor_t) (modeA : Option (List Int)) (alignA : Nat)
        (descB : Option hiptensorTensorDescriptor_t) (modeB : Option (List Int)) (alignB : Nat)
        (descC : Option hiptensorTensorDescriptor_t) (modeC : Option (List Int)) (alignC : Nat)
        (descD : Option hiptensorTensorDescriptor_t) (modeD : Option (List Int)) (alignD : Nat)
        (typeCompute : hiptensorComputeType_t),
      hiptensorInitContractionDescriptor (some h) desc descA modeA alignA descB modeB alignB
          descC modeC alignC descD modeD alignD typeCompute =
        hiptensorInitContractionDescriptor (some h2) desc descA modeA alignA descB modeB alignB
          descC modeC alignC descD modeD alignD typeCompute) ∧
    (∀ (h2 : hiptensorHandle_t) (desc : Option hiptensorContractionDescriptor_t)
        (find : Option hiptensorContractionFind_t) (pref : hiptensorWorksizePreference_t)
        (workspaceSize : Option Nat),
      hiptensorContractionGetWorkspaceSize (some h) desc find pref workspaceSize =
        hiptensorContractionGetWorkspaceSize (some h2) desc find pref workspaceSize) := by
  have hb : (env.currentDeviceId != h.deviceId) = true := by simpa using hdev
  refine ⟨?_, ?_, ?_, ?_, ?_⟩
  · intro f algo
    simp only [hiptensorInitContractionFind, hb, if_true]
  · intro p d f workspaceSize
    simp only [hiptensorInitContractionPlan, hb, if_true]
  · intro p s alpha A B D beta C workspace workspaceSize stream hs
    simp [hiptensorContraction, hb, hs]
  · intro h2 desc descA modeA alignA descB modeB alignB descC modeC alignC descD modeD alignD
      typeCompute
    cases desc <;> cases descA <;> cases descB <;> cases descD <;> rfl
  · intro h2 desc find pref workspaceSize
    cases workspaceSize <;> cases desc <;> cases find <;> rfl

/-- Witness for C7 (amended): handle on device 0, device 1 active, with a
registry, a find and a bound plan on which each of the three calls would
otherwise go through. -/
theorem arch_mismatch_checked_entry_points_witness :
    (sampleEnv 1 [constSolution 2 ContractionOpId_t.SCALE true 8
        HIPTENSOR_STATUS_SUCCESS]).currentDeviceId ≠ (⟨0⟩ : hiptensorHandle_t).deviceId ∧
    hiptensorInitContractionFind
        (sampleEnv 1 [constSolution 2 ContractionOpId_t.SCALE true 8 HIPTENSOR_STATUS_SUCCESS])
        (some ⟨0⟩) (some ⟨HIPTENSOR_ALGO_OTHER 0, []⟩) HIPTENSOR_ALGO_DEFAULT =
      ⟨HIPTENSOR_STATUS_ARCH_MISMATCH, some ⟨HIPTENSOR_ALGO_OTHER 0, []⟩,
        [Event.logAPITrace Api.InitContractionFind,
         Event.logError Api.InitContractionFind HIPTENSOR_STATUS_ARCH_MISMATCH]⟩ ∧
    hiptensorInitContractionPlan
        (sampleEnv 1 [constSolution 2 ContractionOpId_t.SCALE true 8 HIPTENSOR_STATUS_SUCCESS])
        (some ⟨0⟩) (some unboundPlan) (some sampleScaleDescriptor)
        (some ⟨HIPTENSOR_ALGO_DEFAULT,
          [constSolution 2 ContractionOpId_t.SCALE true 8 HIPTENSOR_STATUS_SUCCESS]⟩) 64 =
      some ⟨HIPTENSOR_STATUS_ARCH_MISMATCH, some unboundPlan,
        [Event.logAPITrace Api.InitContractionPlan,
         Event.logError Api.InitContractionPlan HIPTENSOR_STATUS_ARCH_MISMATCH]⟩ ∧
    hiptensorContraction
        (sampleEnv 1 [constSolution 2 ContractionOpId_t.SCALE true 8 HIPTENSOR_STATUS_SUCCESS])
        (some ⟨0⟩) (some sampleScalePlan) (some 1) (some 2) (some 3) none none (some 6)
        none 0 none =
      some ⟨HIPTENSOR_STATUS_ARCH_MISMATCH, (),
        [Event.logAPITrace Api.Contraction,
         Event.logError Api.Contraction HIPTENSOR_STATUS_ARCH_MISMATCH]⟩ :=
  ⟨by decide,
    (arch_mismatch_checked_entry_points
      (sampleEnv 1 [constSolution 2 ContractionOpId_t.SCALE true 8 HIPTENSOR_STATUS_SUCCESS])
      ⟨0⟩ (by decide)).1 ⟨HIPTENSOR_ALGO_OTHER 0, []⟩ HIPTENSOR_ALGO_DEFAULT,
    (arch_mismatch_checked_entry_points
      (sampleEnv 1 [constSolution 2 ContractionOpId_t.SCALE true 8 HIPTENSOR_STATUS_SUCCESS])
      ⟨0⟩ (by decide)).2.1 unboundPlan sampleScaleDescriptor
      ⟨HIPTENSOR_ALGO_DEFAULT,
        [constSolution 2 ContractionOpId_t.SCALE true 8 HIPTENSOR_STATUS_SUCCESS]⟩ 64,
    (arch_mismatch_checked_entry_points
      (sampleEnv 1 [constSolution 2 ContractionOpId_t.SCALE true 8 HIPTENSOR_STATUS_SUCCESS])
      ⟨0⟩ (by decide)).2.2.1 sampleScalePlan
      (constSolution 2 ContractionOpId_t.SCALE true 0 HIPTENSOR_STATUS_SUCCESS)
      1 2 3 6 none none none 0 none rfl⟩

/-! ## Dispatch preconditions -/

/-- C8: `hiptensorContraction` checks its preconditions in a fixed order and
returns the status of the first one violated, whatever later checks would
say: a null handle or plan gives NOT_INITIALIZED; otherwise a null alpha, A, B
or D gives INVALID_VALUE; otherwise an unbound plan gives INTERNAL_ERROR;
otherwise a handle on another device gives ARCH_MISMATCH. In each case the
only calls are the API trace and the error log: the solution is not
invoked. -/
theorem contraction_precondition_order (env : Env)
    (handle : Option hiptensorHandle_t) (plan : Option hiptensorContractionPlan_t)
    (alpha A B beta C D workspace : Option Nat) (workspaceSize : Nat) (stream : Option Nat) :
    (handle = none ∨ plan = none →
      hiptensorContraction env handle plan alpha A B beta C D workspace workspaceSize stream =
        some ⟨HIPTENSOR_STATUS_NOT_INITIALIZED, (),
          [Event.logAPITrace Api.Contraction,
           Event.logError Api.Contraction HIPTENSOR_STATUS_NOT_INITIALIZED]⟩) ∧
    (handle ≠ none → plan ≠ none →
      (alpha = none ∨ A = none ∨ B = none ∨ D = none) →
      hiptensorContraction env handle plan alpha A B beta C D workspace workspaceSize stream =
        some ⟨HIPTENSOR_STATUS_INVALID_VALUE, (),
          [Event.logAPITrace Api.Contraction,
           Event.logError Api.Contraction HIPTENSOR_STATUS_INVALID_VALUE]⟩) ∧
    (∀ h p, handle = some h → plan = some p →
      alpha ≠ none → A ≠ none → B ≠ none → D ≠ none →
      p.mSolution = none →
      hiptensorContraction env handle plan alpha A B beta C D workspace workspaceSize stream =
        some ⟨HIPTENSOR_STATUS_INTERNAL_ERROR, (),
          [Event.logAPITrace Api.Contraction,
           Event.logError Api.Contraction HIPTENSOR_STATUS_INTERNAL_ERROR]⟩) ∧
    (∀ h p, handle = some h → plan = some p →
      alpha ≠ none → A ≠ none → B ≠ none → D ≠ none →
      p.mSolution ≠ none →
      env.currentDeviceId ≠ h.deviceId →
      hiptensorContraction env handle plan alpha A B beta C D workspace workspaceSize stream =
        some ⟨HIPTENSOR_STATUS_ARCH_MISMATCH, (),
          [Event.logAPITrace Api.Contraction,
           Event.logError Api.Contraction HIPTENSOR_STATUS_ARCH_MISMATCH]⟩) := by
  refine ⟨?_, ?_, ?_, ?_⟩
  · rintro (rfl | rfl)
    · simp [hiptensorContraction]
    · cases handle <;> simp [hiptensorContraction]
  · intro hh hp hnull
    obtain ⟨h, rfl⟩ := Option.ne_none_iff_exists'.mp hh
    obtain ⟨p, rfl⟩ := Option.ne_none_iff_exists'.mp hp
    have hcond : (alpha == none || A == none || B == none || D == none) = true := by
      rcases hnull with rfl | rfl | rfl | rfl <;> simp
    simp only [hiptensorContraction, hcond, if_true]
  · rintro h p rfl rfl ha hA hB hD hs
    obtain ⟨a, rfl⟩ := Option.ne_none_iff_exists'.mp ha
    obtain ⟨a1, rfl⟩ := Option.ne_none_iff_exists'.mp hA
    obtain ⟨b1, rfl⟩ := Option.ne_none_iff_exists'.mp hB
    obtain ⟨d1, rfl⟩ := Option.ne_none_iff_exists'.mp hD
    simp [hiptensorContraction, hs]
  · rintro h p rfl rfl ha hA hB hD hs hdev
    obtain ⟨a, rfl⟩ := Option.ne_none_iff_exists'.mp ha
    obtain ⟨a1, rfl⟩ := Option.ne_none_iff_exists'.mp hA
    obtain ⟨b1, rfl⟩ := Option.ne_none_iff_exists'.mp hB
    obtain ⟨d1, rfl⟩ := Option.ne_none_iff_exists'.mp hD
    obtain ⟨s, hs⟩ := Option.ne_none_iff_exists'.mp hs
    have hb : (env.currentDeviceId != h.deviceId) = true := by simpa using hdev
    simp [hiptensorContraction, hs, hb]

/-- Witness for C8: a null alpha together with an unbound plan and a handle on
another device is answered by the earliest of the three checks,
INVALID_VALUE. -/
theorem contraction_precondition_order_witness :
    unboundPlan.mSolution = none ∧
    (sampleEnv 1 []).currentDeviceId ≠ (⟨0⟩ : hiptensorHandle_t).deviceId ∧
    hiptensorContraction (sampleEnv 1 []) (some ⟨0⟩) (some unboundPlan)
        none (some 2) (some 3) none none (some 6) none 0 none =
      some ⟨HIPTENSOR_STATUS_INVALID_VALUE, (),
        [Event.logAPITrace Api.Contraction,
         Event.logError Api.Contraction HIPTENSOR_STATUS_INVALID_VALUE]⟩ :=
  ⟨rfl, by decide,
    (contraction_precondition_order (sampleEnv 1 []) (some ⟨0⟩) (some unboundPlan)
      none (some 2) (some 3) none none (some 6) none 0 none).2.1
      (by simp) (by simp) (Or.inl rfl)⟩

/-- C9 (counterexample): a plan of kind BILINEAR executed with null C and
null beta is not rejected: the bound solution is invoked with the null
pointers and its status, SUCCESS, is returned. -/
theorem contraction_bilinear_null_C_dispatched :
    sampleBilinearPlan.mContractionDesc.mContractionOpId = ContractionOpId_t.BILINEAR ∧
    hiptensorContraction (sampleEnv 0 []) (some ⟨0⟩) (some sampleBilinearPlan)
        (some 1) (some 2) (some 3) none none (some 6) none 0 none =
      some ⟨HIPTENSOR_STATUS_SUCCESS, (),
        [Event.logAPITrace Api.Contraction,
         Event.invoke 1
           { alpha := some 1, A := some 2, B := some 3, beta := none, C := none, D := some 6
             a := sampleBilinearLayout.a, b := sampleBilinearLayout.b
             c := sampleBilinearLayout.c, d := sampleBilinearLayout.d
             workspace := none }
           0 ⟨none, false, none⟩]⟩ :=
  ⟨rfl, rfl⟩

/-- C9 (amended): for every call of `hiptensorContraction` with non-null
handle, plan, alpha, A, B and D, a bound solution, a matching device and a
plan descriptor whose records and mode lists can be read, C and beta are not
null-checked, whatever the plan's operation kind: the bound solution is
invoked once, with C and beta as they were passed, and the call returns the
solution's status; everything after the invocation is logging. In particular a
SCALE plan with null C and beta succeeds when the solution succeeds. -/
theorem contraction_dispatches_any_C (env : Env) (h : hiptensorHandle_t)
    (p : hiptensorContractionPlan_t) (s : ContractionSolution) (alpha A B D : Nat)
    (beta C workspace : Option Nat) (workspaceSize : Nat) (stream : Option Nat)
    (layout : ContractionLayout)
    (hbound : p.mSolution = some s)
    (hdev : env.currentDeviceId = h.deviceId)
    (hlayout : contractionLayout p.mContractionDesc = some layout) :
    ∃ rest,
      hiptensorContraction env (some h) (some p) (some alpha) (some A) (some B) beta C (some D)
          workspace workspaceSize stream =
        some ⟨(s.invoke
            { alpha := some alpha, A := some A, B := some B, beta := beta, C := C, D := some D
              a := layout.a, b := layout.b, c := layout.c, d := layout.d
              workspace := workspace }
            workspaceSize
            (if env.perfTrace then ⟨stream, true, some (0, env.coldRuns, env.hotRuns)⟩
              else ⟨stream, false, none⟩)).1, (),
          Event.logAPITrace Api.Contraction ::
            Event.invoke s.uid
              { alpha := some alpha, A := some A, B := some B, beta := beta, C := C, D := some D
                a := layout.a, b := layout.b, c := layout.c, d := layout.d
                workspace := workspace }
              workspaceSize
              (if env.perfTrace then ⟨stream, true, some (0, env.coldRuns, env.hotRuns)⟩
                else ⟨stream, false, none⟩) :: rest⟩ ∧
      ∀ e ∈ rest, e.isLog = true := by
  have hb : (env.currentDeviceId != h.deviceId) = false := by simp [hdev]
  have hlog : ∀ status, ∀ e ∈ contractionErrorLog status, e.isLog = true := by
    intro status e he
    unfold contractionErrorLog at he
    split_ifs at he <;> simp at he <;> subst he <;> rfl
  have hnull : (some alpha == none || some A == none || some B == none || some D == none)
      = false := rfl
  by_cases hperf : env.perfTrace = true
  · simp only [hiptensorContraction, hnull, hbound, hb, hlayout, hperf, Option.bind,
      if_true, Bool.false_eq_true, if_false]
    refine ⟨_, rfl, ?_⟩
    intro e he
    rcases List.mem_append.mp he with he | he
    · split_ifs at he <;> simp at he
      subst he; rfl
    · exact hlog _ e he
  · simp only [hiptensorContraction, hnull, hbound, hb, hlayout, hperf, Option.bind,
      if_true, Bool.false_eq_true, if_false]
    exact ⟨_, rfl, fun e he => hlog _ e he⟩

/-- Witness for C9 (amended): a SCALE plan executed with null C and null beta
succeeds. -/
theorem contraction_dispatches_any_C_witness :
    sampleScalePlan.mSolution =
      some (constSolution 2 ContractionOpId_t.SCALE true 0 HIPTENSOR_STATUS_SUCCESS) ∧
    (sampleEnv 0 []).currentDeviceId = (⟨0⟩ : hiptensorHandle_t).deviceId ∧
    contractionLayout sampleScalePlan.mContractionDesc = some sampleLayout ∧
    ∃ rest,
      hiptensorContraction (sampleEnv 0 []) (some ⟨0⟩) (some sampleScalePlan)
          (some 1) (some 2) (some 3) none none (some 6) none 0 none =
        some ⟨HIPTENSOR_STATUS_SUCCESS, (),
          Event.logAPITrace Api.Contraction ::
            Event.invoke 2
              { alpha := some 1, A := some 2, B := some 3, beta := none, C := none, D := some 6
                a := sampleLayout.a, b := sampleLayout.b, c := sampleLayout.c
                d := sampleLayout.d, workspace := none }
              0 ⟨none, false, none⟩ :: rest⟩ ∧
      ∀ e ∈ rest, e.isLog = true :=
  ⟨rfl, rfl, rfl,
    contraction_dispatches_any_C (sampleEnv 0 []) ⟨0⟩ sampleScalePlan
      (constSolution 2 ContractionOpId_t.SCALE true 0 HIPTENSOR_STATUS_SUCCESS)
      1 2 3 6 none none none 0 none sampleLayout rfl rfl rfl⟩

/-! ## Plan construction -/

/-- C10: with non-null arguments and a matching device, when narrowing the
find's candidates by the descriptor's operation kind and data types leaves no
candidate, `hiptensorInitContractionPlan` returns INTERNAL_ERROR and leaves
the plan as it was: neither `mSolution` nor `mContractionDesc` is assigned.
This holds for every stored selection algorithm. -/
theorem initContractionPlan_no_candidate (env : Env) (h : hiptensorHandle_t)
    (p : hiptensorContractionPlan_t) (d : hiptensorContractionDescriptor_t)
    (f : hiptensorContractionFind_t) (workspaceSize : Nat) (layout : ContractionLayout)
    (hdev : env.currentDeviceId = h.deviceId)
    (hlayout : contractionLayout d = some layout)
    (hempty : planCandidates d f = some []) :
    ∃ trace,
      hiptensorInitContractionPlan env (some h) (some p) (some d) (some f) workspaceSize =
        some ⟨HIPTENSOR_STATUS_INTERNAL_ERROR, some p, trace⟩ ∧
      ∀ e ∈ trace, e.isInvoke = false := by
  have hb : (env.currentDeviceId != h.deviceId) = false := by simp [hdev]
  cases halgo : f.mSelectionAlgorithm <;>
    simp [hiptensorInitContractionPlan, hb, hempty, launchSelection, halgo, hlayout,
      bruteForceModel, bruteForceLoop, actorCriticModel, topScoring, Event.isInvoke]

/-- Witness for C10: a find holding only a BILINEAR solution, narrowed by the
SCALE sample descriptor, with the brute-force algorithm. -/
theorem initContractionPlan_no_candidate_witness :
    (sampleEnv 0 []).currentDeviceId = (⟨0⟩ : hiptensorHandle_t).deviceId ∧
    contractionLayout sampleScaleDescriptor = some sampleLayout ∧
    planCandidates sampleScaleDescriptor
        ⟨HIPTENSOR_ALGO_DEFAULT,
          [constSolution 1 ContractionOpId_t.BILINEAR true 0 HIPTENSOR_STATUS_SUCCESS]⟩ =
      some [] ∧
    ∃ trace,
      hiptensorInitContractionPlan (sampleEnv 0 []) (some ⟨0⟩) (some unboundPlan)
          (some sampleScaleDescriptor)
          (some ⟨HIPTENSOR_ALGO_DEFAULT,
            [constSolution 1 ContractionOpId_t.BILINEAR true 0 HIPTENSOR_STATUS_SUCCESS]⟩) 64 =
        some ⟨HIPTENSOR_STATUS_INTERNAL_ERROR, some unboundPlan, trace⟩ ∧
      ∀ e ∈ trace, e.isInvoke = false :=
  ⟨rfl, rfl, rfl,
    initContractionPlan_no_candidate (sampleEnv 0 []) ⟨0⟩ unboundPlan sampleScaleDescriptor
      ⟨HIPTENSOR_ALGO_DEFAULT,
        [constSolution 1 ContractionOpId_t.BILINEAR true 0 HIPTENSOR_STATUS_SUCCESS]⟩
      64 sampleLayout rfl rfl rfl⟩

/-! ## Find construction -/

/-- C12: with non-null handle and find and a matching device, an algorithm
value other than DEFAULT, DEFAULT_PATIENT and ACTOR_CRITIC makes
`hiptensorInitContractionFind` return INVALID_VALUE and leave the find
(selection algorithm and candidates) as it was, whatever the registry holds;
the registry is not even enumerated. -/
theorem initContractionFind_unrecognized (env : Env) (h : hiptensorHandle_t)
    (f : hiptensorContractionFind_t) (algo : hiptensorAlgo_t)
    (hdev : env.currentDeviceId = h.deviceId)
    (h1 : algo ≠ HIPTENSOR_ALGO_DEFAULT) (h2 : algo ≠ HIPTENSOR_ALGO_DEFAULT_PATIENT)
    (h3 : algo ≠ HIPTENSOR_ALGO_ACTOR_CRITIC) :
    hiptensorInitContractionFind env (some h) (some f) algo =
      ⟨HIPTENSOR_STATUS_INVALID_VALUE, some f,
        [Event.logAPITrace Api.InitContractionFind,
         Event.logError Api.InitContractionFind HIPTENSOR_STATUS_INVALID_VALUE]⟩ := by
  have hb : (env.currentDeviceId != h.deviceId) = false := by simp [hdev]
  have ha : isRecognizedAlgo algo = false := by simp [isRecognizedAlgo, h1, h2, h3]
  simp [hiptensorInitContractionFind, hb, ha]

/-- Witness for C12: an unrecognised algorithm value with two registered
solutions and a find that already holds an algorithm and a candidate. -/
theorem initContractionFind_unrecognized_witness :
    hiptensorInitContractionFind
        (sampleEnv 0 [constSolution 1 ContractionOpId_t.BILINEAR true 0 HIPTENSOR_STATUS_SUCCESS,
          constSolution 2 ContractionOpId_t.SCALE true 8 HIPTENSOR_STATUS_SUCCESS])
        (some ⟨0⟩)
        (some ⟨HIPTENSOR_ALGO_ACTOR_CRITIC,
          [constSolution 2 ContractionOpId_t.SCALE true 8 HIPTENSOR_STATUS_SUCCESS]⟩)
        (HIPTENSOR_ALGO_OTHER 7) =
      ⟨HIPTENSOR_STATUS_INVALID_VALUE,
        some ⟨HIPTENSOR_ALGO_ACTOR_CRITIC,
          [constSolution 2 ContractionOpId_t.SCALE true 8 HIPTENSOR_STATUS_SUCCESS]⟩,
        [Event.logAPITrace Api.InitContractionFind,
         Event.logError Api.InitContractionFind HIPTENSOR_STATUS_INVALID_VALUE]⟩ :=
  initContractionFind_unrecognized _ ⟨0⟩ _ (HIPTENSOR_ALGO_OTHER 7) rfl
    (by decide) (by decide) (by decide)

/-- C13: with non-null handle and find, a matching device and a recognised
algorithm, `hiptensorInitContractionFind` returns INTERNAL_ERROR exactly when
the registry holds no solution, and SUCCESS otherwise. -/
theorem initContractionFind_status (env : Env) (h : hiptensorHandle_t)
    (f : hiptensorContractionFind_t) (algo : hiptensorAlgo_t)
    (hdev : env.currentDeviceId = h.deviceId)
    (halgo : algo = HIPTENSOR_ALGO_DEFAULT ∨ algo = HIPTENSOR_ALGO_DEFAULT_PATIENT ∨
      algo = HIPTENSOR_ALGO_ACTOR_CRITIC) :
    ((hiptensorInitContractionFind env (some h) (some f) algo).status =
        HIPTENSOR_STATUS_INTERNAL_ERROR ↔ env.allSolutions = []) ∧
    (env.allSolutions ≠ [] →
      (hiptensorInitContractionFind env (some h) (some f) algo).status =
        HIPTENSOR_STATUS_SUCCESS) := by
  have hb : (env.currentDeviceId != h.deviceId) = false := by simp [hdev]
  have ha : isRecognizedAlgo algo = true := by
    rcases halgo with rfl | rfl | rfl <;> rfl
  by_cases hreg : env.allSolutions = []
  · simp [hiptensorInitContractionFind, hb, ha, hreg]
  · simp [hiptensorInitContractionFind, hb, ha, hreg]

/-- Witness for C13: the brute-force algorithm with one registered solution
succeeds. -/
theorem initContractionFind_status_witness :
    ((hiptensorInitContractionFind
          (sampleEnv 0 [constSolution 2 ContractionOpId_t.SCALE true 8 HIPTENSOR_STATUS_SUCCESS])
          (some ⟨0⟩) (some ⟨HIPTENSOR_ALGO_OTHER 0, []⟩) HIPTENSOR_ALGO_DEFAULT).status =
        HIPTENSOR_STATUS_INTERNAL_ERROR ↔
      (sampleEnv 0 [constSolution 2 ContractionOpId_t.SCALE true 8
        HIPTENSOR_STATUS_SUCCESS]).allSolutions = []) ∧
    ((sampleEnv 0 [constSolution 2 ContractionOpId_t.SCALE true 8
        HIPTENSOR_STATUS_SUCCESS]).allSolutions ≠ [] →
      (hiptensorInitContractionFind
          (sampleEnv 0 [constSolution 2 ContractionOpId_t.SCALE true 8 HIPTENSOR_STATUS_SUCCESS])
          (some ⟨0⟩) (some ⟨HIPTENSOR_ALGO_OTHER 0, []⟩) HIPTENSOR_ALGO_DEFAULT).status =
        HIPTENSOR_STATUS_SUCCESS) :=
  initContractionFind_status _ ⟨0⟩ _ HIPTENSOR_ALGO_DEFAULT rfl (Or.inl rfl)

/-- C14: on every successful `hiptensorInitContractionFind` the find stores
the requested algorithm and its candidates are the registry's solutions, one
per registry entry and in the registry's order (so the list has the
registry's length and nothing is filtered out); the list does not depend on
the algorithm, the handle or the find's previous contents. -/
theorem initContractionFind_candidates (env : Env) (handle : Option hiptensorHandle_t)
    (find : Option hiptensorContractionFind_t) (algo : hiptensorAlgo_t)
    (hok : (hiptensorInitContractionFind env handle find algo).status =
      HIPTENSOR_STATUS_SUCCESS) :
    ∃ f1, (hiptensorInitContractionFind env handle find algo).out = some f1 ∧
      f1.mSelectionAlgorithm = algo ∧
      f1.mCandidates = toVoidVec env.allSolutions ∧
      f1.mCandidates.length = env.allSolutions.length ∧
      (∀ i : Nat, f1.mCandidates[i]? = env.allSolutions[i]?.map fun p => p.2) ∧
      (∀ (handle2 : Option hiptensorHandle_t) (find2 : Option hiptensorContractionFind_t)
          (algo2 : hiptensorAlgo_t) (f2 : hiptensorContractionFind_t),
        (hiptensorInitContractionFind env handle2 find2 algo2).status =
          HIPTENSOR_STATUS_SUCCESS →
        (hiptensorInitContractionFind env handle2 find2 algo2).out = some f2 →
        f2.mCandidates = f1.mCandidates) := by
  have key : ∀ (hd : Option hiptensorHandle_t) (fd : Option hiptensorContractionFind_t)
      (al : hiptensorAlgo_t),
      (hiptensorInitContractionFind env hd fd al).status = HIPTENSOR_STATUS_SUCCESS →
      ∃ f0, fd = some f0 ∧ (hiptensorInitContractionFind env hd fd al).out =
        some ⟨al, toVoidVec env.allSolutions⟩ := by
    intro hd fd al hs
    unfold hiptensorInitContractionFind at hs ⊢
    split at hs
    · rename_i h0 f0
      split_ifs at hs ⊢
      simp_all
    · simp at hs
  obtain ⟨f0, -, hout⟩ := key handle find algo hok
  refine ⟨_, hout, rfl, rfl, by simp [toVoidVec], ?_, ?_⟩
  · intro i
    simp [toVoidVec, List.getElem?_map]
  · intro handle2 find2 algo2 f2 hs2 hout2
    obtain ⟨f3, -, hout3⟩ := key handle2 find2 algo2 hs2
    rw [hout3] at hout2
    injection hout2 with h2
    rw [← h2]

/-- Witness for C14: the actor-critic algorithm over a registry of a BILINEAR
and a SCALE solution stores both, in order, over the find's stale
candidate. -/
theorem initContractionFind_candidates_witness :
    (hiptensorInitContractionFind
        (sampleEnv 0 [constSolution 1 ContractionOpId_t.BILINEAR true 0 HIPTENSOR_STATUS_SUCCESS,
          constSolution 2 ContractionOpId_t.SCALE true 8 HIPTENSOR_STATUS_SUCCESS])
        (some ⟨0⟩)
        (some ⟨HIPTENSOR_ALGO_OTHER 0,
          [constSolution 3 ContractionOpId_t.SCALE true 8 HIPTENSOR_STATUS_SUCCESS]⟩)
        HIPTENSOR_ALGO_ACTOR_CRITIC).status = HIPTENSOR_STATUS_SUCCESS ∧
    ∃ f1, (hiptensorInitContractionFind
        (sampleEnv 0 [constSolution 1 ContractionOpId_t.BILINEAR true 0 HIPTENSOR_STATUS_SUCCESS,
          constSolution 2 ContractionOpId_t.SCALE true 8 HIPTENSOR_STATUS_SUCCESS])
        (some ⟨0⟩)
        (some ⟨HIPTENSOR_ALGO_OTHER 0,
          [constSolution 3 ContractionOpId_t.SCALE true 8 HIPTENSOR_STATUS_SUCCESS]⟩)
        HIPTENSOR_ALGO_ACTOR_CRITIC).out = some f1 ∧
      f1.mSelectionAlgorithm = HIPTENSOR_ALGO_ACTOR_CRITIC ∧
      f1.mCandidates =
        [constSolution 1 ContractionOpId_t.BILINEAR true 0 HIPTENSOR_STATUS_SUCCESS,
         constSolution 2 ContractionOpId_t.SCALE true 8 HIPTENSOR_STATUS_SUCCESS] :=
  ⟨rfl,
    (initContractionFind_candidates
      (sampleEnv 0 [constSolution 1 ContractionOpId_t.BILINEAR true 0 HIPTENSOR_STATUS_SUCCESS,
        constSolution 2 ContractionOpId_t.SCALE true 8 HIPTENSOR_STATUS_SUCCESS])
      (some ⟨0⟩)
      (some ⟨HIPTENSOR_ALGO_OTHER 0,
        [constSolution 3 ContractionOpId_t.SCALE true 8 HIPTENSOR_STATUS_SUCCESS]⟩)
      HIPTENSOR_ALGO_ACTOR_CRITIC rfl).imp
      fun _ hf => ⟨hf.1, hf.2.1, hf.2.2.1⟩⟩

/-- C20: when `hiptensorInitContractionFind` fails with INTERNAL_ERROR (the
registry is empty) the find is left half updated: `mSelectionAlgorithm`
already holds the requested algorithm while `mCandidates` is unchanged. On
every other failure status (NOT_INITIALIZED, ARCH_MISMATCH, INVALID_VALUE) the
find is unchanged. -/
theorem initContractionFind_failure_frame (env : Env) (handle : Option hiptensorHandle_t)
    (find : Option hiptensorContractionFind_t) (algo : hiptensorAlgo_t) :
    (∀ h f, handle = some h → find = some f → env.currentDeviceId = h.deviceId →
      (algo = HIPTENSOR_ALGO_DEFAULT ∨ algo = HIPTENSOR_ALGO_DEFAULT_PATIENT ∨
        algo = HIPTENSOR_ALGO_ACTOR_CRITIC) →
      env.allSolutions = [] →
      hiptensorInitContractionFind env handle find algo =
        ⟨HIPTENSOR_STATUS_INTERNAL_ERROR, some ⟨algo, f.mCandidates⟩,
          [Event.logAPITrace Api.InitContractionFind, Event.allSolutions,
           Event.logError Api.InitContractionFind HIPTENSOR_STATUS_INTERNAL_ERROR]⟩) ∧
    ((hiptensorInitContractionFind env handle find algo).status =
        HIPTENSOR_STATUS_INTERNAL_ERROR →
      env.allSolutions = [] ∧
      ∃ f, find = some f ∧
        (hiptensorInitContractionFind env handle find algo).out =
          some ⟨algo, f.mCandidates⟩) ∧
    ((hiptensorInitContractionFind env handle find algo).status =
          HIPTENSOR_STATUS_NOT_INITIALIZED ∨
        (hiptensorInitContractionFind env handle find algo).status =
          HIPTENSOR_STATUS_ARCH_MISMATCH ∨
        (hiptensorInitContractionFind env handle find algo).status =
          HIPTENSOR_STATUS_INVALID_VALUE →
      (hiptensorInitContractionFind env handle find algo).out = find) := by
  refine ⟨?_, ?_, ?_⟩
  · rintro h f rfl rfl hdev halgo hreg
    have hb : (env.currentDeviceId != h.deviceId) = false := by simp [hdev]
    have ha : isRecognizedAlgo algo = true := by
      rcases halgo with rfl | rfl | rfl <;> rfl
    simp [hiptensorInitContractionFind, hb, ha, hreg]
  · intro hs
    unfold hiptensorInitContractionFind at hs ⊢
    split at hs
    · rename_i h0 f0
      split_ifs at hs ⊢ with hd ha hr
      exact ⟨by simpa using hr, f0, rfl, rfl⟩
    · simp at hs
  · intro hs
    unfold hiptensorInitContractionFind at hs ⊢
    split at hs
    · split_ifs at hs ⊢ <;> simp_all
    · rfl

/-- Witness for C20: the brute-force algorithm on an empty registry, over a
find that holds another algorithm and one candidate. -/
theorem initContractionFind_failure_frame_witness :
    hiptensorInitContractionFind (sampleEnv 0 []) (some ⟨0⟩)
        (some ⟨HIPTENSOR_ALGO_ACTOR_CRITIC,
          [constSolution 3 ContractionOpId_t.SCALE true 8 HIPTENSOR_STATUS_SUCCESS]⟩)
        HIPTENSOR_ALGO_DEFAULT =
      ⟨HIPTENSOR_STATUS_INTERNAL_ERROR,
        some ⟨HIPTENSOR_ALGO_DEFAULT,
          [constSolution 3 ContractionOpId_t.SCALE true 8 HIPTENSOR_STATUS_SUCCESS]⟩,
        [Event.logAPITrace Api.InitContractionFind, Event.allSolutions,
         Event.logError Api.InitContractionFind HIPTENSOR_STATUS_INTERNAL_ERROR]⟩ :=
  (initContractionFind_failure_frame (sampleEnv 0 []) (some ⟨0⟩)
    (some ⟨HIPTENSOR_ALGO_ACTOR_CRITIC,
      [constSolution 3 ContractionOpId_t.SCALE true 8 HIPTENSOR_STATUS_SUCCESS]⟩)
    HIPTENSOR_ALGO_DEFAULT).1 ⟨0⟩ _ rfl rfl rfl (Or.inl rfl) rfl

/-! ## Plan construction follows the selection -/

/-- The selection models of section 4.5, as modelled, report SUCCESS only
together with a winner. -/
theorem launchSelection_success_winner (env : Env) (algo : hiptensorAlgo_t)
    (candidates : List ContractionSolution) (d : hiptensorContractionDescriptor_t)
    (workspaceSize : Nat) (sel : Selection)
    (hsel : launchSelection env algo candidates d workspaceSize = some sel)
    (hok : sel.status = HIPTENSOR_STATUS_SUCCESS) : sel.winner ≠ none := by
  unfold launchSelection at hsel
  split_ifs at hsel
  · simp only [Option.map_eq_some'] at hsel
    obtain ⟨layout, -, rfl⟩ := hsel
    simp only [bruteForceModel] at hok ⊢
    rcases hl : bruteForceLoop env (selectionArgs env layout) workspaceSize candidates none
      [Event.bruteForceModel (candidates.map fun s => s.uid) layout workspaceSize]
      with ⟨_ | ⟨b, t⟩, tr⟩
    · simp [hl] at hok
    · simp [hl]
  · simp only [Option.map_eq_some'] at hsel
    obtain ⟨layout, -, rfl⟩ := hsel
    simp only [actorCriticModel] at hok ⊢
    rcases hl : topScoring (env.predictor layout) candidates none with _ | b
    · simp [hl] at hok
    · simp [hl]
  · simp at hsel
    subst hsel
    simp at hok

/-- The error log after the solution has run holds no solution call. -/
theorem contractionErrorLog_no_invoke (status : hiptensorStatus_t) :
    (contractionErrorLog status).filter Event.isInvoke = [] := by
  unfold contractionErrorLog
  split_ifs <;> rfl

/-- C15: a call of `hiptensorContraction` that passes every precondition check
returns exactly the status the plan's bound solution returned, with
performance tracing on and with it off, and calls the solution exactly once:
the status is neither replaced nor mapped and the call is not retried. -/
theorem contraction_returns_solution_status (env : Env) (h : hiptensorHandle_t)
    (p : hiptensorContractionPlan_t) (s : ContractionSolution) (alpha A B D : Nat)
    (beta C workspace : Option Nat) (workspaceSize : Nat) (stream : Option Nat)
    (layout : ContractionLayout)
    (hbound : p.mSolution = some s)
    (hdev : env.currentDeviceId = h.deviceId)
    (hlayout : contractionLayout p.mContractionDesc = some layout) :
    (env.perfTrace = true →
      ∃ r, hiptensorContraction env (some h) (some p) (some alpha) (some A) (some B) beta C
            (some D) workspace workspaceSize stream = some r ∧
        r.status = (s.invoke
          { alpha := some alpha, A := some A, B := some B, beta := beta, C := C, D := some D
            a := layout.a, b := layout.b, c := layout.c, d := layout.d
            workspace := workspace }
          workspaceSize ⟨stream, true, some (0, env.coldRuns, env.hotRuns)⟩).1 ∧
        r.trace.filter Event.isInvoke =
          [Event.invoke s.uid
            { alpha := some alpha, A := some A, B := some B, beta := beta, C := C, D := some D
              a := layout.a, b := layout.b, c := layout.c, d := layout.d
              workspace := workspace }
            workspaceSize ⟨stream, true, some (0, env.coldRuns, env.hotRuns)⟩]) ∧
    (env.perfTrace = false →
      ∃ r, hiptensorContraction env (some h) (some p) (some alpha) (some A) (some B) beta C
            (some D) workspace workspaceSize stream = some r ∧
        r.status = (s.invoke
          { alpha := some alpha, A := some A, B := some B, beta := beta, C := C, D := some D
            a := layout.a, b := layout.b, c := layout.c, d := layout.d
            workspace := workspace }
          workspaceSize ⟨stream, false, none⟩).1 ∧
        r.trace.filter Event.isInvoke =
          [Event.invoke s.uid
            { alpha := some alpha, A := some A, B := some B, beta := beta, C := C, D := some D
              a := layout.a, b := layout.b, c := layout.c, d := layout.d
              workspace := workspace }
            workspaceSize ⟨stream, false, none⟩]) := by
  have hb : (env.currentDeviceId != h.deviceId) = false := by simp [hdev]
  have hnull : (some alpha == none || some A == none || some B == none || some D == none)
      = false := rfl
  constructor
  · intro hperf
    simp only [hiptensorContraction, hnull, hbound, hb, hlayout, hperf, Option.bind,
      if_true, Bool.false_eq_true, if_false]
    refine ⟨_, rfl, rfl, ?_⟩
    simp only [List.filter_append, contractionErrorLog_no_invoke, List.append_nil]
    split_ifs <;> rfl
  · intro hperf
    simp only [hiptensorContraction, hnull, hbound, hb, hlayout, hperf, Option.bind,
      if_true, Bool.false_eq_true, if_false]
    refine ⟨_, rfl, rfl, ?_⟩
    simp only [List.filter_append, contractionErrorLog_no_invoke, List.append_nil]
    rfl

/-- Witness for C15: with performance tracing on, a bound solution that
reports INSUFFICIENT_WORKSPACE has that status returned. -/
theorem contraction_returns_solution_status_witness :
    (samplePerfEnv 0).perfTrace = true ∧
    ∃ r, hiptensorContraction (samplePerfEnv 0) (some ⟨0⟩)
          (some ⟨sampleBilinearDescriptor,
            some (constSolution 1 ContractionOpId_t.BILINEAR true 64
              HIPTENSOR_STATUS_INSUFFICIENT_WORKSPACE)⟩)
          (some 1) (some 2) (some 3) (some 4) (some 5) (some 6) none 0 none = some r ∧
      r.status = HIPTENSOR_STATUS_INSUFFICIENT_WORKSPACE ∧
      r.trace.filter Event.isInvoke =
        [Event.invoke 1
          { alpha := some 1, A := some 2, B := some 3, beta := some 4, C := some 5, D := some 6
            a := sampleBilinearLayout.a, b := sampleBilinearLayout.b
            c := sampleBilinearLayout.c, d := sampleBilinearLayout.d
            workspace := none }
          0 ⟨none, true, some (0, 1, 5)⟩] :=
  ⟨rfl,
    (contraction_returns_solution_status (samplePerfEnv 0) ⟨0⟩
      ⟨sampleBilinearDescriptor,
        some (constSolution 1 ContractionOpId_t.BILINEAR true 64
          HIPTENSOR_STATUS_INSUFFICIENT_WORKSPACE)⟩
      (constSolution 1 ContractionOpId_t.BILINEAR true 64
        HIPTENSOR_STATUS_INSUFFICIENT_WORKSPACE)
      1 2 3 6 (some 4) (some 5) none 0 none sampleBilinearLayout rfl rfl rfl).1 rfl⟩

/-! ## Outputs on NOT_INITIALIZED and ARCH_MISMATCH -/

/-- C16: whenever an entry point returns NOT_INITIALIZED or ARCH_MISMATCH its
output object holds the value it had before the call: the contraction
descriptor of `hiptensorInitContractionDescriptor`, the find of
`hiptensorInitContractionFind`, the workspace size of
`hiptensorContractionGetWorkspaceSize` and the plan of
`hiptensorInitContractionPlan` (also when that status comes from the selection
model). `hiptensorContraction` takes its plan read-only and has none of these
outputs. -/
theorem not_initialized_arch_mismatch_frame (env : Env) :
    (∀ (handle : Option hiptensorHandle_t) (desc : Option hiptensorContractionDescriptor_t)
        (descA : Option hiptensorTensorDescriptor_t) (modeA : Option (List Int)) (alignA : Nat)
        (descB : Option hiptensorTensorDescriptor_t) (modeB : Option (List Int)) (alignB : Nat)
        (descC : Option hiptensorTensorDescriptor_t) (modeC : Option (List Int)) (alignC : Nat)
        (descD : Option hiptensorTensorDescriptor_t) (modeD : Option (List Int)) (alignD : Nat)
        (typeCompute : hiptensorComputeType_t)
        (r : Outcome (Option hiptensorContractionDescriptor_t)),
      hiptensorInitContractionDescriptor handle desc descA modeA alignA descB modeB alignB
          descC modeC alignC descD modeD alignD typeCompute = some r →
      (r.status = HIPTENSOR_STATUS_NOT_INITIALIZED ∨
        r.status = HIPTENSOR_STATUS_ARCH_MISMATCH) →
      r.out = desc) ∧
    (∀ (handle : Option hiptensorHandle_t) (find : Option hiptensorContractionFind_t)
        (algo : hiptensorAlgo_t),
      ((hiptensorInitContractionFind env handle find algo).status =
          HIPTENSOR_STATUS_NOT_INITIALIZED ∨
        (hiptensorInitContractionFind env handle find algo).status =
          HIPTENSOR_STATUS_ARCH_MISMATCH) →
      (hiptensorInitContractionFind env handle find algo).out = find) ∧
    (∀ (handle : Option hiptensorHandle_t) (desc : Option hiptensorContractionDescriptor_t)
        (find : Option hiptensorContractionFind_t) (pref : hiptensorWorksizePreference_t)
        (workspaceSize : Option Nat) (r : Outcome (Option Nat)),
      hiptensorContractionGetWorkspaceSize handle desc find pref workspaceSize = some r →
      (r.status = HIPTENSOR_STATUS_NOT_INITIALIZED ∨
        r.status = HIPTENSOR_STATUS_ARCH_MISMATCH) →
      r.out = workspaceSize) ∧
    (∀ (handle : Option hiptensorHandle_t) (plan : Option hiptensorContractionPlan_t)
        (desc : Option hiptensorContractionDescriptor_t)
        (find : Option hiptensorContractionFind_t) (workspaceSize : Nat)
        (r : Outcome (Option hiptensorContractionPlan_t)),
      hiptensorInitContractionPlan env handle plan desc find workspaceSize = some r →
      (r.status = HIPTENSOR_STATUS_NOT_INITIALIZED ∨
        r.status = HIPTENSOR_STATUS_ARCH_MISMATCH) →
      r.out = plan) := by
  refine ⟨?_, ?_, ?_, ?_⟩
  · intro handle desc descA modeA alignA descB modeB alignB descC modeC alignC descD modeD
      alignD typeCompute r hcall hs
    unfold hiptensorInitContractionDescriptor at hcall
    split at hcall
    · split at hcall
      · simp at hcall; subst hcall; simp at hs
      · split at hcall
        · simp only [Option.bind_eq_some] at hcall
          obtain ⟨mA, -, mB, -, mC, -, mD, -, hr⟩ := hcall
          simp at hr; subst hr; simp at hs
        · simp only [Option.bind_eq_some] at hcall
          obtain ⟨mA, -, mB, -, mD, -, hr⟩ := hcall
          simp at hr; subst hr; simp at hs
    · simp at hcall; subst hcall; rfl
  · intro handle find algo hs
    unfold hiptensorInitContractionFind at hs ⊢
    split at hs
    · split_ifs at hs ⊢ <;> simp_all
    · rfl
  · intro handle desc find pref workspaceSize r hcall hs
    unfold hiptensorContractionGetWorkspaceSize at hcall
    split at hcall
    · simp at hcall
    · split at hcall
      · simp only [Option.map_eq_some'] at hcall
        obtain ⟨w, -, hr⟩ := hcall
        subst hr; simp at hs
      · simp at hcall; subst hcall; rfl
  · intro handle plan desc find workspaceSize r hcall hs
    unfold hiptensorInitContractionPlan at hcall
    split at hcall
    · split_ifs at hcall
      · simp at hcall; subst hcall; rfl
      · simp only [Option.bind_eq_some] at hcall
        obtain ⟨candidates, -, sel, -, hr⟩ := hcall
        split_ifs at hr
        · simp at hr; subst hr; rfl
        · simp only [Option.bind_eq_some] at hr
          obtain ⟨w, -, hr⟩ := hr
          simp at hr; subst hr; simp at hs
    · simp at hcall; subst hcall; rfl

/-- Witness for C16: each entry point on a null handle, over outputs that
already hold a value. -/
theorem not_initialized_arch_mismatch_frame_witness :
    (hiptensorInitContractionDescriptor none (some sampleScaleDescriptor)
        (some sampleTensor) (some [0, 1]) 16 (some sampleTensor) (some [1, 2]) 16
        none none 0 (some sampleTensor) (some [0, 2]) 16
        (HIPTENSOR_COMPUTE_OTHER 4)).map (fun r => (r.status, r.out)) =
      some (HIPTENSOR_STATUS_NOT_INITIALIZED, some sampleScaleDescriptor) ∧
    (hiptensorInitContractionPlan (sampleEnv 0 []) none (some sampleScalePlan)
        (some sampleScaleDescriptor) (some ⟨HIPTENSOR_ALGO_DEFAULT, []⟩) 0).map
        (fun r => r.status) = some HIPTENSOR_STATUS_NOT_INITIALIZED ∧
    ∀ r, hiptensorInitContractionPlan (sampleEnv 0 []) none (some sampleScalePlan)
        (some sampleScaleDescriptor) (some ⟨HIPTENSOR_ALGO_DEFAULT, []⟩) 0 = some r →
      r.out = some sampleScalePlan :=
  ⟨rfl, rfl, fun r hr =>
    (not_initialized_arch_mismatch_frame (sampleEnv 0 [])).2.2.2 none (some sampleScalePlan)
      (some sampleScaleDescriptor) (some ⟨HIPTENSOR_ALGO_DEFAULT, []⟩) 0 r hr
      (Or.inl (by
        have h0 : hiptensorInitContractionPlan (sampleEnv 0 []) none (some sampleScalePlan)
            (some sampleScaleDescriptor) (some ⟨HIPTENSOR_ALGO_DEFAULT, []⟩) 0 =
            some ⟨HIPTENSOR_STATUS_NOT_INITIALIZED, some sampleScalePlan,
              [Event.logAPITrace Api.InitContractionPlan,
               Event.logError Api.InitContractionPlan HIPTENSOR_STATUS_NOT_INITIALIZED]⟩ := rfl
        rw [h0] at hr
        injection hr with hr
        rw [← hr]))⟩

/-- C17 (evaluation of the code): with a null `workspaceSize` and every other
argument valid, `hiptensorContractionGetWorkspaceSize` reads through the null
pointer when it formats its API-trace message, before the null check, so the
call has no defined outcome; with a non-null `workspaceSize` a null handle,
descriptor or find is answered with NOT_INITIALIZED. -/
theorem getWorkspaceSize_null_workspaceSize :
    hiptensorContractionGetWorkspaceSize (some ⟨0⟩) (some sampleScaleDescriptor)
        (some ⟨HIPTENSOR_ALGO_DEFAULT, []⟩) HIPTENSOR_WORKSPACE_MIN none = none ∧
    (hiptensorContractionGetWorkspaceSize none (some sampleScaleDescriptor)
        (some ⟨HIPTENSOR_ALGO_DEFAULT, []⟩) HIPTENSOR_WORKSPACE_MIN (some 99)).map
        (fun r => (r.status, r.out)) =
      some (HIPTENSOR_STATUS_NOT_INITIALIZED, some 99) ∧
    (hiptensorContractionGetWorkspaceSize (some ⟨0⟩) none
        (some ⟨HIPTENSOR_ALGO_DEFAULT, []⟩) HIPTENSOR_WORKSPACE_MIN (some 99)).map
        (fun r => (r.status, r.out)) =
      some (HIPTENSOR_STATUS_NOT_INITIALIZED, some 99) ∧
    (hiptensorContractionGetWorkspaceSize (some ⟨0⟩) (some sampleScaleDescriptor)
        none HIPTENSOR_WORKSPACE_MIN (some 99)).map (fun r => (r.status, r.out)) =
      some (HIPTENSOR_STATUS_NOT_INITIALIZED, some 99) :=
  ⟨rfl, rfl, rfl, rfl⟩

/-! ## The FLOP count of the performance trace -/

/-- The 64-bit unsigned FLOP count is the mathematical product reduced modulo
`2 ^ 64`. -/
theorem contractionFlops_cast (m n k : Int) :
    (contractionFlops m n k : Int) = (2 * m * n * k) % 2 ^ 64 := by
  have hm : ((m % 18446744073709551616).toNat : Int) = m % 18446744073709551616 :=
    Int.toNat_of_nonneg (Int.emod_nonneg m (by norm_num))
  have hn : ((n % 18446744073709551616).toNat : Int) = n % 18446744073709551616 :=
    Int.toNat_of_nonneg (Int.emod_nonneg n (by norm_num))
  have hk : ((k % 18446744073709551616).toNat : Int) = k % 18446744073709551616 :=
    Int.toNat_of_nonneg (Int.emod_nonneg k (by norm_num))
  simp only [contractionFlops]
  push_cast
  rw [hm, hn, hk]
  rw [Int.mul_emod (2 * m * n) k, Int.mul_emod (2 * m) n, Int.mul_emod 2 m]
  conv_lhs => rw [Int.mul_emod]
  simp only [Int.emod_emod_of_dvd, dvd_refl, Int.emod_emod]
  norm_num

/-- C19 (counterexample): for the dimensions m = n = k = 2097152, which fit a
32-bit signed integer, the mathematical FLOP count is `2 ^ 64` and the code
computes 0; for the dimensions (-1, 1, 1) it computes `2 ^ 64 - 2`. -/
theorem contractionFlops_wraps :
    ((-2147483648 : Int) ≤ 2097152 ∧ (2097152 : Int) ≤ 2147483647) ∧
    (2 * 2097152 * 2097152 * 2097152 : Int) = 18446744073709551616 ∧
    contractionFlops 2097152 2097152 2097152 = 0 ∧
    (contractionFlops 2097152 2097152 2097152 : Int) ≠ 2 * 2097152 * 2097152 * 2097152 ∧
    contractionFlops (-1) 1 1 = 18446744073709551614 := by
  decide

/-- C19 (amended): the FLOP count the code computes from the `(m, n, k)` of
`problemDims()` is `2 * m * n * k` reduced modulo `2 ^ 64`; it equals the
mathematical value `2 * m * n * k` whenever that value lies in
`[0, 2 ^ 64)`, in particular for non-negative dimensions with
`m * n * k < 2 ^ 63`. This is the count the performance-trace path of
`hiptensorContraction` logs after a successful timed run. -/
theorem contractionFlops_mod (m n k : Int) :
    (contractionFlops m n k : Int) = (2 * m * n * k) % 2 ^ 64 ∧
    (0 ≤ 2 * m * n * k → 2 * m * n * k < 2 ^ 64 →
      (contractionFlops m n k : Int) = 2 * m * n * k) ∧
    (0 ≤ m → 0 ≤ n → 0 ≤ k → m * n * k < 2 ^ 63 →
      (contractionFlops m n k : Int) = 2 * m * n * k) ∧
    (∀ (env : Env) (h : hiptensorHandle_t) (p : hiptensorContractionPlan_t)
        (s : ContractionSolution) (alpha A B D : Nat) (beta C workspace : Option Nat)
        (workspaceSize : Nat) (stream : Option Nat) (layout : ContractionLayout),
      p.mSolution = some s → env.currentDeviceId = h.deviceId →
      contractionLayout p.mContractionDesc = some layout →
      env.perfTrace = true →
      (s.invoke
          { alpha := some alpha, A := some A, B := some B, beta := beta, C := C, D := some D
            a := layout.a, b := layout.b, c := layout.c, d := layout.d
            workspace := workspace }
          workspaceSize ⟨stream, true, some (0, env.coldRuns, env.hotRuns)⟩).1 =
        HIPTENSOR_STATUS_SUCCESS →
      s.problemDims
          { alpha := some alpha, A := some A, B := some B, beta := beta, C := C, D := some D
            a := layout.a, b := layout.b, c := layout.c, d := layout.d
            workspace := workspace } = (m, n, k) →
      ∃ r time bytes,
        hiptensorContraction env (some h) (some p) (some alpha) (some A) (some B) beta C
            (some D) workspace workspaceSize stream = some r ∧
        Event.logMetrics s.uid time (contractionFlops m n k) bytes ∈ r.trace) := by
  have hcast := contractionFlops_cast m n k
  refine ⟨hcast, ?_, ?_, ?_⟩
  · intro h0 h1
    rw [hcast]
    exact Int.emod_eq_of_lt h0 h1
  · intro hm hn hk hlt
    rw [hcast]
    have h0 : 0 ≤ 2 * m * n * k := by positivity
    have h1 : 2 * m * n * k < 2 ^ 64 := by
      have : 2 * m * n * k = 2 * (m * n * k) := by ring
      rw [this]
      norm_num at hlt ⊢
      omega
    exact Int.emod_eq_of_lt h0 h1
  · intro env h p s alpha A B D beta C workspace workspaceSize stream layout hbound hdev
      hlayout hperf hok hdims
    have hb : (env.currentDeviceId != h.deviceId) = false := by simp [hdev]
    have hnull : (some alpha == none || some A == none || some B == none || some D == none)
        = false := rfl
    simp only [hiptensorContraction, hnull, hbound, hb, hlayout, hperf, Option.bind,
      if_true, Bool.false_eq_true, if_false, hok, hdims]
    refine ⟨_, (s.invoke
          { alpha := some alpha, A := some A, B := some B, beta := beta, C := C, D := some D
            a := layout.a, b := layout.b, c := layout.c, d := layout.d
            workspace := workspace }
          workspaceSize ⟨stream, true, some (0, env.coldRuns, env.hotRuns)⟩).2,
      s.problemBytes
          { alpha := some alpha, A := some A, B := some B, beta := beta, C := C, D := some D
            a := layout.a, b := layout.b, c := layout.c, d := layout.d
            workspace := workspace }, rfl, ?_⟩
    simp

/-- Witness for C19 (amended): the dimensions (4, 4, 4) of the sample
solutions give 128. -/
theorem contractionFlops_mod_witness :
    (contractionFlops 4 4 4 : Int) = 2 * 4 * 4 * 4 :=
  (contractionFlops_mod 4 4 4).2.1 (by decide) (by decide)

/-! ## The mode list of the fourth operand -/

/-- Reading `n` labels from a non-null array gives its first `n` entries. -/
theorem readModes_some {xs v : List Int} {n : Nat} (h : readModes (some xs) n = some v) :
    v = xs.take n := by
  simp only [readModes] at h
  split_ifs at h
  simp only [Option.some.injEq] at h
  exact h.symm

/-- The candidate loop of the brute-force model only appends to the calls made
so far, and what it appends are dry-run and timed calls of candidates on the
arguments it was given. -/
theorem bruteForceLoop_trace (env : Env) (args : SolutionArgs) (workspaceSize : Nat)
    (candidates : List ContractionSolution) :
    ∀ (best : Option (ContractionSolution × Nat)) (trace : List Event),
      ∃ rest, (bruteForceLoop env args workspaceSize candidates best trace).2 = trace ++ rest ∧
        ∀ e ∈ rest, (∃ uid, e = Event.initArgs uid args) ∨
          (∃ uid config, e = Event.invoke uid args workspaceSize config) := by
  induction candidates with
  | nil => intro best trace; exact ⟨[], by simp [bruteForceLoop], by simp⟩
  | cons s rest ih =>
    intro best trace
    have hstep : ∀ (b : Option (ContractionSolution × Nat)) (added : List Event),
        (∀ e ∈ added, (∃ uid, e = Event.initArgs uid args) ∨
          (∃ uid config, e = Event.invoke uid args workspaceSize config)) →
        ∃ more, (bruteForceLoop env args workspaceSize rest b (trace ++ added)).2 =
            trace ++ more ∧
          ∀ e ∈ more, (∃ uid, e = Event.initArgs uid args) ∨
            (∃ uid config, e = Event.invoke uid args workspaceSize config) := by
      intro b added hadded
      obtain ⟨more, hmore, hev⟩ := ih b (trace ++ added)
      refine ⟨added ++ more, by rw [hmore, List.append_assoc], ?_⟩
      intro e he
      rcases List.mem_append.mp he with he | he
      · exact hadded e he
      · exact hev e he
    have h1 : ∀ e ∈ [Event.initArgs s.uid args], (∃ uid, e = Event.initArgs uid args) ∨
        (∃ uid config, e = Event.invoke uid args workspaceSize config) := by
      intro e he
      simp only [List.mem_singleton] at he
      exact Or.inl ⟨s.uid, he⟩
    have h2 : ∀ e ∈ [Event.initArgs s.uid args, Event.invoke s.uid args workspaceSize
          ⟨none, true, some (0, env.coldRuns, env.hotRuns)⟩],
        (∃ uid, e = Event.initArgs uid args) ∨
        (∃ uid config, e = Event.invoke uid args workspaceSize config) := by
      intro e he
      simp only [List.mem_cons, List.mem_singleton, List.not_mem_nil, or_false] at he
      rcases he with he | he
      · exact Or.inl ⟨s.uid, he⟩
      · exact Or.inr ⟨s.uid, _, he⟩
    by_cases hv : s.initArgs args = true
    · by_cases hs : (s.invoke args workspaceSize
          ⟨none, true, some (0, env.coldRuns, env.hotRuns)⟩).1 = HIPTENSOR_STATUS_SUCCESS
      · cases best with
        | none =>
          simp only [bruteForceLoop, hv, hs, if_true]
          exact hstep _ _ h2
        | some bt =>
          obtain ⟨b, t⟩ := bt
          simp only [bruteForceLoop, hv, hs, if_true]
          split_ifs
          · exact hstep _ _ h2
          · exact hstep _ _ h2
      · simp only [bruteForceLoop, hv, hs, if_true, if_false]
        exact hstep _ _ h2
    · simp only [bruteForceLoop, hv, Bool.false_eq_true, if_false]
      exact hstep _ _ h1

/-- The brute-force model first records its own call, with the layouts it was
given, and then calls candidates on those layouts only. -/
theorem bruteForceModel_trace (env : Env) (candidates : List ContractionSolution)
    (layout : ContractionLayout) (workspaceSize : Nat) :
    ∃ rest, (bruteForceModel env candidates layout workspaceSize).trace =
        Event.bruteForceModel (candidates.map fun s => s.uid) layout workspaceSize :: rest ∧
      ∀ e ∈ rest, (∃ uid, e = Event.initArgs uid (selectionArgs env layout)) ∨
        (∃ uid config, e = Event.invoke uid (selectionArgs env layout) workspaceSize config) := by
  obtain ⟨rest, hrest, hev⟩ := bruteForceLoop_trace env (selectionArgs env layout) workspaceSize
    candidates none
    [Event.bruteForceModel (candidates.map fun s => s.uid) layout workspaceSize]
  refine ⟨rest, ?_, hev⟩
  simp only [bruteForceModel]
  rcases hl : bruteForceLoop env (selectionArgs env layout) workspaceSize candidates none
    [Event.bruteForceModel (candidates.map fun s => s.uid) layout workspaceSize]
    with ⟨_ | ⟨b, t⟩, tr⟩
  · rw [hl] at hrest
    simp only [hl]
    simpa using hrest
  · rw [hl] at hrest
    simp only [hl]
    simpa using hrest

/-- The actor-critic model records its own call, with the layouts it was
given, and calls nothing else. -/
theorem actorCriticModel_trace (env : Env) (candidates : List ContractionSolution)
    (layout : ContractionLayout) (workspaceSize : Nat) :
    (actorCriticModel env candidates layout workspaceSize).trace =
      [Event.actorCriticModel (candidates.map fun s => s.uid) layout workspaceSize] := by
  simp only [actorCriticModel]
  rcases hl : topScoring (env.predictor layout) candidates none with _ | b <;> rfl

/-- The calls of `hiptensorInitContractionPlan` once the device check has
passed: the API trace and the opening HIP event calls, then the calls of the
selection step, then the closing HIP event calls and one log line. -/
theorem initContractionPlan_trace (env : Env) (h : hiptensorHandle_t)
    (p : hiptensorContractionPlan_t) (d : hiptensorContractionDescriptor_t)
    (f : hiptensorContractionFind_t) (workspaceSize : Nat)
    (candidates : List ContractionSolution) (sel : Selection)
    (hdev : env.currentDeviceId = h.deviceId)
    (hcand : planCandidates d f = some candidates)
    (hsel : launchSelection env f.mSelectionAlgorithm candidates d workspaceSize = some sel)
    (hwin : sel.status = HIPTENSOR_STATUS_SUCCESS → sel.winner ≠ none) :
    ∃ r last, hiptensorInitContractionPlan env (some h) (some p) (some d) (some f)
          workspaceSize = some r ∧
      r.trace = [Event.logAPITrace Api.InitContractionPlan, Event.hipEventCreate,
          Event.hipEventCreate, Event.hipEventRecord] ++ sel.trace ++
        [Event.hipEventRecord, Event.hipEventSynchronize, Event.hipEventElapsedTime,
          Event.hipEventDestroy, Event.hipEventDestroy] ++ [last] ∧
      last.isLog = true := by
  have hb : (env.currentDeviceId != h.deviceId) = false := by simp [hdev]
  by_cases hok : sel.status = HIPTENSOR_STATUS_SUCCESS
  · obtain ⟨w, hw⟩ := Option.ne_none_iff_exists'.mp (hwin hok)
    have hne : (sel.status != HIPTENSOR_STATUS_SUCCESS) = false := by simp [hok]
    simp only [hiptensorInitContractionPlan, hb, hcand, hsel, Option.bind, hne, hw,
      Bool.false_eq_true, if_false]
    exact ⟨_, _, rfl, rfl, rfl⟩
  · have hne : (sel.status != HIPTENSOR_STATUS_SUCCESS) = true := by simp [hok]
    simp only [hiptensorInitContractionPlan, hb, hcand, hsel, Option.bind, hne,
      Bool.false_eq_true, if_false, if_true]
    exact ⟨_, _, rfl, rfl, rfl⟩


/-- An event carries the layouts `L` wherever it carries layouts at all: as a
call of a selection model, or as a dry-run or timed call of a solution. -/
theorem carriesLayout_of_log (L : ContractionLayout) (e : Event)
    (h : e.isLog = true ∨ e = Event.hipEventCreate ∨ e = Event.hipEventRecord ∨
      e = Event.hipEventSynchronize ∨ e = Event.hipEventElapsedTime ∨
      e = Event.hipEventDestroy) :
    (∀ c L2 w, e = Event.bruteForceModel c L2 w → L2 = L) ∧
    (∀ c L2 w, e = Event.actorCriticModel c L2 w → L2 = L) ∧
    (∀ uid args, e = Event.initArgs uid args →
      args.a = L.a ∧ args.b = L.b ∧ args.c = L.c ∧ args.d = L.d) ∧
    (∀ uid args w config, e = Event.invoke uid args w config →
      args.a = L.a ∧ args.b = L.b ∧ args.c = L.c ∧ args.d = L.d) := by
  refine ⟨?_, ?_, ?_, ?_⟩
  · intro c L2 w he; subst he
    simp [Event.isLog] at h
  · intro c L2 w he; subst he
    simp [Event.isLog] at h
  · intro uid args he; subst he
    simp [Event.isLog] at h
  · intro uid args w config he; subst he
    simp [Event.isLog] at h

/-- On a descriptor whose layouts read as `L`, a plan construction with a
recognised algorithm calls its selection model with `L`, and every call in
its trace that carries layouts carries `L`. -/
theorem initContractionPlan_layout (env : Env) (d : hiptensorContractionDescriptor_t)
    (t0 t1 t2 t3 : hiptensorTensorDescriptor_t) (restT : List hiptensorTensorDescriptor_t)
    (L : ContractionLayout)
    (hT : d.mTensorDesc = t0 :: t1 :: t2 :: t3 :: restT)
    (hlayout : contractionLayout d = some L) :
    (∀ (h : hiptensorHandle_t) (p : hiptensorContractionPlan_t)
        (f : hiptensorContractionFind_t) (workspaceSize : Nat),
      env.currentDeviceId = h.deviceId →
      (f.mSelectionAlgorithm = HIPTENSOR_ALGO_DEFAULT ∨
        f.mSelectionAlgorithm = HIPTENSOR_ALGO_DEFAULT_PATIENT ∨
        f.mSelectionAlgorithm = HIPTENSOR_ALGO_ACTOR_CRITIC) →
      ∃ r candidates,
        hiptensorInitContractionPlan env (some h) (some p) (some d) (some f) workspaceSize =
          some r ∧
        planCandidates d f = some candidates ∧
        ((f.mSelectionAlgorithm = HIPTENSOR_ALGO_ACTOR_CRITIC ∧
            Event.actorCriticModel (candidates.map fun s => s.uid) L workspaceSize ∈ r.trace) ∨
          (f.mSelectionAlgorithm ≠ HIPTENSOR_ALGO_ACTOR_CRITIC ∧
            Event.bruteForceModel (candidates.map fun s => s.uid) L workspaceSize ∈ r.trace)) ∧
        ∀ e ∈ r.trace,
          (∀ c L2 w, e = Event.bruteForceModel c L2 w → L2 = L) ∧
          (∀ c L2 w, e = Event.actorCriticModel c L2 w → L2 = L) ∧
          (∀ uid args, e = Event.initArgs uid args →
            args.a = L.a ∧ args.b = L.b ∧ args.c = L.c ∧ args.d = L.d) ∧
          (∀ uid args w config, e = Event.invoke uid args w config →
            args.a = L.a ∧ args.b = L.b ∧ args.c = L.c ∧ args.d = L.d)) := by
  intro h p f workspaceSize hdev halgo
  obtain ⟨cands, hcand⟩ : ∃ cands, planCandidates d f = some cands :=
    ⟨queryTypes (queryOpId f.mCandidates d.mContractionOpId) t0.mType t1.mType t2.mType
      t3.mType d.mComputeType, by simp [planCandidates, hT]⟩
  -- the selection step and its calls
  have hselection : ∃ sel, launchSelection env f.mSelectionAlgorithm cands d workspaceSize =
        some sel ∧
      ((f.mSelectionAlgorithm = HIPTENSOR_ALGO_ACTOR_CRITIC ∧
          Event.actorCriticModel (cands.map fun s => s.uid) L workspaceSize ∈ sel.trace) ∨
        (f.mSelectionAlgorithm ≠ HIPTENSOR_ALGO_ACTOR_CRITIC ∧
          Event.bruteForceModel (cands.map fun s => s.uid) L workspaceSize ∈ sel.trace)) ∧
      ∀ e ∈ sel.trace,
        (∀ c L2 w, e = Event.bruteForceModel c L2 w → L2 = L) ∧
        (∀ c L2 w, e = Event.actorCriticModel c L2 w → L2 = L) ∧
        (∀ uid args, e = Event.initArgs uid args →
          args.a = L.a ∧ args.b = L.b ∧ args.c = L.c ∧ args.d = L.d) ∧
        (∀ uid args w config, e = Event.invoke uid args w config →
          args.a = L.a ∧ args.b = L.b ∧ args.c = L.c ∧ args.d = L.d) := by
    have hbrute : ∀ cands : List ContractionSolution,
        Event.bruteForceModel (cands.map fun s => s.uid) L workspaceSize ∈
          (bruteForceModel env cands L workspaceSize).trace ∧
        ∀ e ∈ (bruteForceModel env cands L workspaceSize).trace,
          (∀ c L2 w, e = Event.bruteForceModel c L2 w → L2 = L) ∧
          (∀ c L2 w, e = Event.actorCriticModel c L2 w → L2 = L) ∧
          (∀ uid args, e = Event.initArgs uid args →
            args.a = L.a ∧ args.b = L.b ∧ args.c = L.c ∧ args.d = L.d) ∧
          (∀ uid args w config, e = Event.invoke uid args w config →
            args.a = L.a ∧ args.b = L.b ∧ args.c = L.c ∧ args.d = L.d) := by
      intro cands
      obtain ⟨rest, hrest, hev⟩ := bruteForceModel_trace env cands L workspaceSize
      rw [hrest]
      refine ⟨List.mem_cons_self _ _, ?_⟩
      intro e he
      rcases List.mem_cons.mp he with he | he
      · subst he
        refine ⟨?_, ?_, ?_, ?_⟩
        · intro c L2 w heq; injection heq with _ hl _; exact hl.symm
        · intro c L2 w heq; cases heq
        · intro uid args heq; cases heq
        · intro uid args w config heq; cases heq
      · rcases hev e he with ⟨uid, rfl⟩ | ⟨uid, config, rfl⟩
        · refine ⟨?_, ?_, ?_, ?_⟩
          · intro c L2 w heq; cases heq
          · intro c L2 w heq; cases heq
          · intro uid2 args heq; injection heq with _ ha; subst ha
            exact ⟨rfl, rfl, rfl, rfl⟩
          · intro uid2 args w config heq; cases heq
        · refine ⟨?_, ?_, ?_, ?_⟩
          · intro c L2 w heq; cases heq
          · intro c L2 w heq; cases heq
          · intro uid2 args heq; cases heq
          · intro uid2 args w config2 heq; injection heq with _ ha _ _; subst ha
            exact ⟨rfl, rfl, rfl, rfl⟩
    rcases halgo with ha | ha | ha
    · refine ⟨bruteForceModel env cands L workspaceSize,
        by simp [launchSelection, ha, hlayout], Or.inr ⟨by simp [ha], (hbrute _).1⟩,
        (hbrute _).2⟩
    · refine ⟨bruteForceModel env cands L workspaceSize,
        by simp [launchSelection, ha, hlayout], Or.inr ⟨by simp [ha], (hbrute _).1⟩,
        (hbrute _).2⟩
    · refine ⟨actorCriticModel env cands L workspaceSize,
        by simp [launchSelection, ha, hlayout], Or.inl ⟨ha, ?_⟩, ?_⟩
      · rw [actorCriticModel_trace]; exact List.mem_singleton_self _
      · intro e he
        rw [actorCriticModel_trace, List.mem_singleton] at he
        subst he
        refine ⟨?_, ?_, ?_, ?_⟩
        · intro c L2 w heq; cases heq
        · intro c L2 w heq; injection heq with _ hl _; exact hl.symm
        · intro uid args heq; cases heq
        · intro uid args w config heq; cases heq
  obtain ⟨sel, hsel, hmem, hall⟩ := hselection
  obtain ⟨r, last, hcall, htrace, hlast⟩ := initContractionPlan_trace env h p d f workspaceSize cands
    sel hdev hcand hsel
    (launchSelection_success_winner env f.mSelectionAlgorithm cands d workspaceSize sel hsel)
  refine ⟨r, cands, hcall, hcand, ?_, ?_⟩
  · rw [htrace]
    rcases hmem with ⟨ha, hm⟩ | ⟨ha, hm⟩
    · exact Or.inl ⟨ha, by simp [hm]⟩
    · exact Or.inr ⟨ha, by simp [hm]⟩
  · intro e he
    rw [htrace] at he
    simp only [List.mem_append, List.mem_cons, List.mem_singleton, List.not_mem_nil,
      or_false] at he
    rcases he with ((he | he) | he) | he
    · exact carriesLayout_of_log L e (by
        rcases he with rfl | rfl | rfl | rfl <;> simp [Event.isLog])
    · exact hall e he
    · exact carriesLayout_of_log L e (by
        rcases he with rfl | rfl | rfl | rfl | rfl <;> simp [Event.isLog])
    · subst he
      exact carriesLayout_of_log L e (Or.inl hlast)

/-- On a descriptor whose layouts read as `L`, the selection step calls its
model with `L` and with no other layouts. -/
theorem launchSelection_layout (env : Env) (d : hiptensorContractionDescriptor_t)
    (L : ContractionLayout) (hlayout : contractionLayout d = some L)
    (candidates : List ContractionSolution) (workspaceSize : Nat) (L2 : ContractionLayout) :
    (launchSelection env HIPTENSOR_ALGO_DEFAULT candidates d workspaceSize =
        some (bruteForceModel env candidates L2 workspaceSize) → L2 = L) ∧
    (launchSelection env HIPTENSOR_ALGO_DEFAULT_PATIENT candidates d workspaceSize =
        some (bruteForceModel env candidates L2 workspaceSize) → L2 = L) ∧
    (launchSelection env HIPTENSOR_ALGO_ACTOR_CRITIC candidates d workspaceSize =
        some (actorCriticModel env candidates L2 workspaceSize) → L2 = L) := by
  have hbrute : bruteForceModel env candidates L workspaceSize =
      bruteForceModel env candidates L2 workspaceSize → L2 = L := by
    intro heq
    obtain ⟨r1, h1, -⟩ := bruteForceModel_trace env candidates L workspaceSize
    obtain ⟨r2, h2, -⟩ := bruteForceModel_trace env candidates L2 workspaceSize
    rw [heq, h2] at h1
    injection h1 with hhead _
    injection hhead with _ hl _
  refine ⟨?_, ?_, ?_⟩
  · intro heq
    simp only [launchSelection, hlayout, Option.map] at heq
    exact hbrute (by simpa using heq)
  · intro heq
    simp only [launchSelection, hlayout, Option.map] at heq
    exact hbrute (by simpa using heq)
  · intro heq
    simp only [launchSelection, hlayout, Option.map] at heq
    have heq2 : actorCriticModel env candidates L workspaceSize =
        actorCriticModel env candidates L2 workspaceSize := by simpa using heq
    have htr := congrArg Selection.trace heq2
    rw [actorCriticModel_trace, actorCriticModel_trace] at htr
    injection htr with hhead _
    injection hhead with _ hl _
    exact hl.symm

/-- C18: at every call site the mode list passed for the fourth (D) operand is
the descriptor's mode list at index 2, the list also passed for the C
operand: in the dry-run `initArgs` calls of
`hiptensorContractionGetWorkspaceSize`, in the calls of both selection models
from `hiptensorInitContractionPlan`, and in the solution call of
`hiptensorContraction` on the timed and the untimed path. No mode list beyond
index 2 is passed: the layouts each call site passes are `L`, built from
`mTensorDesc[0..3]` and `mTensorMode[0..2]` with `mTensorMode[2]` in the third
and the fourth place. For the selection step, a model called on any layouts
other than `L` is not what the call site does, and in a whole plan
construction the model is called with `L` and every call that carries layouts
carries `L`. Consequently a BILINEAR descriptor built from `modeC` and
`modeD` describes D by `modeC` while the stored `modeD` sits unused at index
3, and a SCALE descriptor holds the caller's `modeD` at index 2. -/
theorem fourth_operand_modes (env : Env) (d : hiptensorContractionDescriptor_t)
    (t0 t1 t2 t3 : hiptensorTensorDescriptor_t) (restT : List hiptensorTensorDescriptor_t)
    (m0 m1 m2 : List Int) (restM : List (List Int)) (L : ContractionLayout)
    (hT : d.mTensorDesc = t0 :: t1 :: t2 :: t3 :: restT)
    (hM : d.mTensorMode = m0 :: m1 :: m2 :: restM)
    (hL : L = { a := ⟨t0.mLengths, t0.mStrides, m0⟩, b := ⟨t1.mLengths, t1.mStrides, m1⟩
                c := ⟨t2.mLengths, t2.mStrides, m2⟩, d := ⟨t3.mLengths, t3.mStrides, m2⟩ }) :
    (∀ (h : hiptensorHandle_t) (f : hiptensorContractionFind_t)
        (pref : hiptensorWorksizePreference_t) (w0 : Nat),
      ∃ w, hiptensorContractionGetWorkspaceSize (some h) (some d) (some f) pref (some w0) =
        some ⟨HIPTENSOR_STATUS_SUCCESS, some w,
          Event.logAPITrace Api.ContractionGetWorkspaceSize ::
            f.mCandidates.map fun s => Event.initArgs s.uid
              { alpha := none, A := none, B := none, beta := none, C := none, D := none
                a := ⟨t0.mLengths, t0.mStrides, m0⟩, b := ⟨t1.mLengths, t1.mStrides, m1⟩
                c := ⟨t2.mLengths, t2.mStrides, m2⟩, d := ⟨t3.mLengths, t3.mStrides, m2⟩
                workspace := none }⟩) ∧
    (∀ (candidates : List ContractionSolution) (workspaceSize : Nat),
      launchSelection env HIPTENSOR_ALGO_DEFAULT candidates d workspaceSize =
          some (bruteForceModel env candidates
            { a := ⟨t0.mLengths, t0.mStrides, m0⟩, b := ⟨t1.mLengths, t1.mStrides, m1⟩
              c := ⟨t2.mLengths, t2.mStrides, m2⟩, d := ⟨t3.mLengths, t3.mStrides, m2⟩ }
            workspaceSize) ∧
      launchSelection env HIPTENSOR_ALGO_DEFAULT_PATIENT candidates d workspaceSize =
          some (bruteForceModel env candidates
            { a := ⟨t0.mLengths, t0.mStrides, m0⟩, b := ⟨t1.mLengths, t1.mStrides, m1⟩
              c := ⟨t2.mLengths, t2.mStrides, m2⟩, d := ⟨t3.mLengths, t3.mStrides, m2⟩ }
            workspaceSize) ∧
      launchSelection env HIPTENSOR_ALGO_ACTOR_CRITIC candidates d workspaceSize =
          some (actorCriticModel env candidates
            { a := ⟨t0.mLengths, t0.mStrides, m0⟩, b := ⟨t1.mLengths, t1.mStrides, m1⟩
              c := ⟨t2.mLengths, t2.mStrides, m2⟩, d := ⟨t3.mLengths, t3.mStrides, m2⟩ }
            workspaceSize)) ∧
    (∀ (h : hiptensorHandle_t) (s : ContractionSolution) (alpha A B D : Nat)
        (beta C workspace : Option Nat) (workspaceSize : Nat) (stream : Option Nat),
      env.currentDeviceId = h.deviceId →
      ∃ status config rest,
        (config = ⟨stream, true, some (0, env.coldRuns, env.hotRuns)⟩ ∨
          config = ⟨stream, false, none⟩) ∧
        hiptensorContraction env (some h) (some ⟨d, some s⟩) (some alpha) (some A) (some B)
            beta C (some D) workspace workspaceSize stream =
          some ⟨status, (),
            Event.logAPITrace Api.Contraction ::
              Event.invoke s.uid
                { alpha := some alpha, A := some A, B := some B, beta := beta, C := C
                  D := some D
                  a := ⟨t0.mLengths, t0.mStrides, m0⟩, b := ⟨t1.mLengths, t1.mStrides, m1⟩
                  c := ⟨t2.mLengths, t2.mStrides, m2⟩, d := ⟨t3.mLengths, t3.mStrides, m2⟩
                  workspace := workspace }
                workspaceSize config :: rest⟩ ∧
        ∀ e ∈ rest, e.isLog = true) ∧
    (∀ (h : hiptensorHandle_t) (d0 : hiptensorContractionDescriptor_t)
        (dA dB dC dD : hiptensorTensorDescriptor_t) (mA mB mC mD : List Int)
        (alignA alignB alignC alignD : Nat) (typeCompute : hiptensorComputeType_t)
        (r : Outcome (Option hiptensorContractionDescriptor_t)),
      hiptensorInitContractionDescriptor (some h) (some d0) (some dA) (some mA) alignA
          (some dB) (some mB) alignB (some dC) (some mC) alignC (some dD) (some mD) alignD
          typeCompute = some r →
      r.status = HIPTENSOR_STATUS_SUCCESS →
      ∃ d1 layout, r.out = some d1 ∧
        d1.mTensorMode = [mA.take dA.mLengths.length, mB.take dB.mLengths.length,
          mC.take dC.mLengths.length, mD.take dD.mLengths.length] ∧
        contractionLayout d1 = some layout ∧
        layout.c.modes = mC.take dC.mLengths.length ∧
        layout.d.modes = mC.take dC.mLengths.length) ∧
    (∀ (h : hiptensorHandle_t) (d0 : hiptensorContractionDescriptor_t)
        (dA dB dD : hiptensorTensorDescriptor_t) (mA mB mD : List Int)
        (descC : Option hiptensorTensorDescriptor_t) (modeC : Option (List Int))
        (alignA alignB alignC alignD : Nat) (typeCompute : hiptensorComputeType_t)
        (r : Outcome (Option hiptensorContractionDescriptor_t)),
      descC = none ∨ modeC = none →
      hiptensorInitContractionDescriptor (some h) (some d0) (some dA) (some mA) alignA
          (some dB) (some mB) alignB descC modeC alignC (some dD) (some mD) alignD
          typeCompute = some r →
      r.status = HIPTENSOR_STATUS_SUCCESS →
      ∃ d1 layout, r.out = some d1 ∧
        d1.mTensorMode = [mA.take dA.mLengths.length, mB.take dB.mLengths.length,
          mD.take dD.mLengths.length] ∧
        contractionLayout d1 = some layout ∧
        layout.d.modes = mD.take dD.mLengths.length) ∧
    (∀ (candidates : List ContractionSolution) (workspaceSize : Nat) (L2 : ContractionLayout),
      (launchSelection env HIPTENSOR_ALGO_DEFAULT candidates d workspaceSize =
          some (bruteForceModel env candidates L2 workspaceSize) → L2 = L) ∧
      (launchSelection env HIPTENSOR_ALGO_DEFAULT_PATIENT candidates d workspaceSize =
          some (bruteForceModel env candidates L2 workspaceSize) → L2 = L) ∧
      (launchSelection env HIPTENSOR_ALGO_ACTOR_CRITIC candidates d workspaceSize =
          some (actorCriticModel env candidates L2 workspaceSize) → L2 = L)) ∧
    (∀ (h : hiptensorHandle_t) (p : hiptensorContractionPlan_t)
        (f : hiptensorContractionFind_t) (workspaceSize : Nat),
      env.currentDeviceId = h.deviceId →
      (f.mSelectionAlgorithm = HIPTENSOR_ALGO_DEFAULT ∨
        f.mSelectionAlgorithm = HIPTENSOR_ALGO_DEFAULT_PATIENT ∨
        f.mSelectionAlgorithm = HIPTENSOR_ALGO_ACTOR_CRITIC) →
      ∃ r candidates,
        hiptensorInitContractionPlan env (some h) (some p) (some d) (some f) workspaceSize =
          some r ∧
        planCandidates d f = some candidates ∧
        ((f.mSelectionAlgorithm = HIPTENSOR_ALGO_ACTOR_CRITIC ∧
            Event.actorCriticModel (candidates.map fun s => s.uid) L workspaceSize ∈ r.trace) ∨
          (f.mSelectionAlgorithm ≠ HIPTENSOR_ALGO_ACTOR_CRITIC ∧
            Event.bruteForceModel (candidates.map fun s => s.uid) L workspaceSize ∈ r.trace)) ∧
        ∀ e ∈ r.trace,
          (∀ c L2 w, e = Event.bruteForceModel c L2 w → L2 = L) ∧
          (∀ c L2 w, e = Event.actorCriticModel c L2 w → L2 = L) ∧
          (∀ uid args, e = Event.initArgs uid args →
            args.a = L.a ∧ args.b = L.b ∧ args.c = L.c ∧ args.d = L.d) ∧
          (∀ uid args w config, e = Event.invoke uid args w config →
            args.a = L.a ∧ args.b = L.b ∧ args.c = L.c ∧ args.d = L.d)) := by
  have hlayoutL : contractionLayout d = some L := by
    rw [hL]
    simp [contractionLayout, hT, hM]
  have hpin := fun candidates workspaceSize L2 =>
    launchSelection_layout env d L hlayoutL candidates workspaceSize L2
  have hplan := initContractionPlan_layout env d t0 t1 t2 t3 restT L hT hlayoutL
  have hlayout : contractionLayout d = some
      { a := ⟨t0.mLengths, t0.mStrides, m0⟩, b := ⟨t1.mLengths, t1.mStrides, m1⟩
        c := ⟨t2.mLengths, t2.mStrides, m2⟩, d := ⟨t3.mLengths, t3.mStrides, m2⟩ } := by
    simp [contractionLayout, hT, hM]
  refine ⟨?_, ?_, ?_, ?_, ?_, hpin, hplan⟩
  · intro h f pref w0
    exact ⟨_, getWorkspaceSize_eq h d f pref w0 _ hlayout⟩
  · intro candidates workspaceSize
    simp [launchSelection, hlayout]
  · intro h s alpha A B D beta C workspace workspaceSize stream hdev
    have hb : (env.currentDeviceId != h.deviceId) = false := by simp [hdev]
    have hnull : (some alpha == none || some A == none || some B == none || some D == none)
        = false := rfl
    have hlog : ∀ status, ∀ e ∈ contractionErrorLog status, e.isLog = true := by
      intro status e he
      unfold contractionErrorLog at he
      split_ifs at he <;> simp at he <;> subst he <;> rfl
    by_cases hperf : env.perfTrace = true
    · simp only [hiptensorContraction, hnull, hb, hlayout, hperf, Option.bind,
        if_true, Bool.false_eq_true, if_false]
      refine ⟨_, _, _, Or.inl rfl, rfl, ?_⟩
      intro e he
      rcases List.mem_append.mp he with he | he
      · split_ifs at he <;> simp at he
        subst he; rfl
      · exact hlog _ e he
    · simp only [hiptensorContraction, hnull, hb, hlayout, hperf, Option.bind,
        if_true, Bool.false_eq_true, if_false]
      exact ⟨_, _, _, Or.inr rfl, rfl, fun e he => hlog _ e he⟩
  · intro h d0 dA dB dC dD mA mB mC mD alignA alignB alignC alignD typeCompute r hcall hok
    unfold hiptensorInitContractionDescriptor at hcall
    simp only at hcall
    split at hcall
    · simp at hcall; subst hcall; simp at hok
    · simp only [Option.bind_eq_some] at hcall
      obtain ⟨vA, hA, vB, hB, vC, hC, vD, hD, hr⟩ := hcall
      have hvA := readModes_some hA
      have hvB := readModes_some hB
      have hvC := readModes_some hC
      have hvD := readModes_some hD
      simp only [Option.some.injEq] at hr
      subst hvA hvB hvC hvD hr
      exact ⟨_, _, rfl, rfl, rfl, rfl, rfl⟩
  · intro h d0 dA dB dD mA mB mD descC modeC alignA alignB alignC alignD typeCompute r hnoC
      hcall hok
    unfold hiptensorInitContractionDescriptor at hcall
    simp only at hcall
    split at hcall
    · simp at hcall; subst hcall; simp at hok
    · split at hcall
      · rcases hnoC with hc | hc <;> simp at hc
      · simp only [Option.bind_eq_some] at hcall
        obtain ⟨vA, hA, vB, hB, vD, hD, hr⟩ := hcall
        have hvA := readModes_some hA
        have hvB := readModes_some hB
        have hvD := readModes_some hD
        simp only [Option.some.injEq] at hr
        subst hvA hvB hvD hr
        exact ⟨_, _, rfl, rfl, rfl, rfl⟩

/-- Witness for C18: on a bilinear descriptor that stores [0, 2] for C and
[2, 0] for D, the solution call of `hiptensorContraction` and the calls of
both selection models from `hiptensorInitContractionPlan` are given [0, 2] for
both operands. -/
theorem fourth_operand_modes_witness :
    sampleTransposedDescriptor.mTensorDesc =
      [sampleTensor, sampleTensor, sampleTensor, sampleTensor] ∧
    sampleTransposedDescriptor.mTensorMode = [[0, 1], [1, 2], [0, 2], [2, 0]] ∧
    sampleBilinearLayout.c.modes = [0, 2] ∧ sampleBilinearLayout.d.modes = [0, 2] ∧
    hiptensorInitContractionPlan (sampleEnv 0 []) (some ⟨0⟩) (some unboundPlan)
        (some sampleTransposedDescriptor)
        (some ⟨HIPTENSOR_ALGO_ACTOR_CRITIC,
          [constSolution 1 ContractionOpId_t.BILINEAR true 0 HIPTENSOR_STATUS_SUCCESS]⟩) 64 =
      some ⟨HIPTENSOR_STATUS_SUCCESS,
        some ⟨sampleTransposedDescriptor,
          some (constSolution 1 ContractionOpId_t.BILINEAR true 0 HIPTENSOR_STATUS_SUCCESS)⟩,
        [Event.logAPITrace Api.InitContractionPlan,
         Event.hipEventCreate, Event.hipEventCreate, Event.hipEventRecord,
         Event.actorCriticModel [1] sampleBilinearLayout 64,
         Event.hipEventRecord, Event.hipEventSynchronize, Event.hipEventElapsedTime,
         Event.hipEventDestroy, Event.hipEventDestroy,
         Event.logSelection HIPTENSOR_ALGO_ACTOR_CRITIC 1]⟩ ∧
    (hiptensorInitContractionPlan (sampleEnv 0 []) (some ⟨0⟩) (some unboundPlan)
        (some sampleTransposedDescriptor)
        (some ⟨HIPTENSOR_ALGO_DEFAULT,
          [constSolution 1 ContractionOpId_t.BILINEAR true 0 HIPTENSOR_STATUS_SUCCESS]⟩) 64).map
        (fun r => r.trace.take 6) =
      some [Event.logAPITrace Api.InitContractionPlan,
         Event.hipEventCreate, Event.hipEventCreate, Event.hipEventRecord,
         Event.bruteForceModel [1] sampleBilinearLayout 64,
         Event.initArgs 1 (selectionArgs (sampleEnv 0 []) sampleBilinearLayout)] ∧
    ∃ status config rest,
      (config = ⟨none, true, some (0, 1, 5)⟩ ∨ config = ⟨none, false, none⟩) ∧
      hiptensorContraction (sampleEnv 0 []) (some ⟨0⟩)
          (some ⟨sampleTransposedDescriptor,
            some (constSolution 1 ContractionOpId_t.BILINEAR true 0 HIPTENSOR_STATUS_SUCCESS)⟩)
          (some 1) (some 2) (some 3) (some 4) (some 5) (some 6) none 0 none =
        some ⟨status, (),
          Event.logAPITrace Api.Contraction ::
            Event.invoke 1
              { alpha := some 1, A := some 2, B := some 3, beta := some 4, C := some 5
                D := some 6
                a := ⟨[4, 4], [4, 1], [0, 1]⟩, b := ⟨[4, 4], [4, 1], [1, 2]⟩
                c := ⟨[4, 4], [4, 1], [0, 2]⟩, d := ⟨[4, 4], [4, 1], [0, 2]⟩
                workspace := none }
              0 config :: rest⟩ ∧
      ∀ e ∈ rest, e.isLog = true :=
  ⟨rfl, rfl, rfl, rfl, rfl, rfl,
    (fourth_operand_modes (sampleEnv 0 []) sampleTransposedDescriptor
      sampleTensor sampleTensor sampleTensor sampleTensor [] [0, 1] [1, 2] [0, 2] [[2, 0]]
      sampleBilinearLayout rfl rfl rfl).2.2.1 ⟨0⟩
      (constSolution 1 ContractionOpId_t.BILINEAR true 0 HIPTENSOR_STATUS_SUCCESS)
      1 2 3 6 (some 4) (some 5) none 0 none rfl⟩

/-! ## Plan construction on an unrecognised algorithm -/

/-- C21: with non-null arguments, a matching device and a descriptor holding
its four tensor records, a find whose stored algorithm is none of DEFAULT,
DEFAULT_PATIENT and ACTOR_CRITIC makes `hiptensorInitContractionPlan` return
INTERNAL_ERROR and leave the plan as it was, whatever the find's candidates:
between the HIP event calls that bracket the selection no selection model and
no solution is called. -/
theorem initContractionPlan_unrecognized_algorithm (env : Env) (h : hiptensorHandle_t)
    (p : hiptensorContractionPlan_t) (d : hiptensorContractionDescriptor_t)
    (f : hiptensorContractionFind_t) (workspaceSize : Nat)
    (t0 t1 t2 t3 : hiptensorTensorDescriptor_t) (restT : List hiptensorTensorDescriptor_t)
    (hdev : env.currentDeviceId = h.deviceId)
    (hT : d.mTensorDesc = t0 :: t1 :: t2 :: t3 :: restT)
    (h1 : f.mSelectionAlgorithm ≠ HIPTENSOR_ALGO_DEFAULT)
    (h2 : f.mSelectionAlgorithm ≠ HIPTENSOR_ALGO_DEFAULT_PATIENT)
    (h3 : f.mSelectionAlgorithm ≠ HIPTENSOR_ALGO_ACTOR_CRITIC) :
    hiptensorInitContractionPlan env (some h) (some p) (some d) (some f) workspaceSize =
      some ⟨HIPTENSOR_STATUS_INTERNAL_ERROR, some p,
        [Event.logAPITrace Api.InitContractionPlan,
         Event.hipEventCreate, Event.hipEventCreate, Event.hipEventRecord,
         Event.hipEventRecord, Event.hipEventSynchronize, Event.hipEventElapsedTime,
         Event.hipEventDestroy, Event.hipEventDestroy,
         Event.logError Api.InitContractionPlan HIPTENSOR_STATUS_INTERNAL_ERROR]⟩ := by
  have hb : (env.currentDeviceId != h.deviceId) = false := by simp [hdev]
  simp [hiptensorInitContractionPlan, hb, planCandidates, hT, launchSelection, h1, h2, h3]

/-- Witness for C21: a find that was never initialised (an algorithm value of
0) but holds a candidate that would validate and run. -/
theorem initContractionPlan_unrecognized_algorithm_witness :
    hiptensorInitContractionPlan (sampleEnv 0 []) (some ⟨0⟩) (some unboundPlan)
        (some sampleBilinearDescriptor)
        (some ⟨HIPTENSOR_ALGO_OTHER 0,
          [constSolution 1 ContractionOpId_t.BILINEAR true 0 HIPTENSOR_STATUS_SUCCESS]⟩) 64 =
      some ⟨HIPTENSOR_STATUS_INTERNAL_ERROR, some unboundPlan,
        [Event.logAPITrace Api.InitContractionPlan,
         Event.hipEventCreate, Event.hipEventCreate, Event.hipEventRecord,
         Event.hipEventRecord, Event.hipEventSynchronize, Event.hipEventElapsedTime,
         Event.hipEventDestroy, Event.hipEventDestroy,
         Event.logError Api.InitContractionPlan HIPTENSOR_STATUS_INTERNAL_ERROR]⟩ :=
  initContractionPlan_unrecognized_algorithm (sampleEnv 0 []) ⟨0⟩ unboundPlan
    sampleBilinearDescriptor
    ⟨HIPTENSOR_ALGO_OTHER 0,
      [constSolution 1 ContractionOpId_t.BILINEAR true 0 HIPTENSOR_STATUS_SUCCESS]⟩ 64
    sampleTensor sampleTensor sampleTensor sampleTensor [] rfl rfl
    (by decide) (by decide) (by decide)

/-! ## The scale form of the descriptor -/

/-- Reading `n` labels gives `n` labels. -/
theorem readModes_length {mode : Option (List Int)} {v : List Int} {n : Nat}
    (h : readModes mode n = some v) : v.length = n := by
  unfold readModes at h
  split at h
  · split_ifs at h with hn
    simp only [Option.some.injEq] at h
    subst h
    simp [List.length_take, hn]
  · split_ifs at h with hn
    simp only [Option.some.injEq] at h
    subst h
    simp [hn]

/-- C22: every successful scale-form call of
`hiptensorInitContractionDescriptor` (`descC` or `modeC` null) stores exactly
four tensor records, A, B, a placeholder and D, where the placeholder has type
NONE_TYPE and all-zero length and stride vectors with as many entries as D's;
it stores the alignments of A, B and D with 0 in the C slot; and it stores
exactly three mode lists, for A, B and D, each the first rank-many labels of
the caller's array. Nothing of `descC`, `modeC` or `alignmentRequirementC`
reaches the result: the call with all three replaced gives the same
outcome. -/
theorem initContractionDescriptor_scale_form
    (handle : Option hiptensorHandle_t) (desc : Option hiptensorContractionDescriptor_t)
    (descA : Option hiptensorTensorDescriptor_t) (modeA : Option (List Int)) (alignA : Nat)
    (descB : Option hiptensorTensorDescriptor_t) (modeB : Option (List Int)) (alignB : Nat)
    (descC : Option hiptensorTensorDescriptor_t) (modeC : Option (List Int)) (alignC : Nat)
    (descD : Option hiptensorTensorDescriptor_t) (modeD : Option (List Int)) (alignD : Nat)
    (typeCompute : hiptensorComputeType_t)
    (r : Outcome (Option hiptensorContractionDescriptor_t))
    (hscale : descC = none ∨ modeC = none)
    (hcall : hiptensorInitContractionDescriptor handle desc descA modeA alignA descB modeB alignB
      descC modeC alignC descD modeD alignD typeCompute = some r)
    (hok : r.status = HIPTENSOR_STATUS_SUCCESS) :
    ∃ dA dB dD placeholder mAV mBV mDV d1,
      descA = some dA ∧ descB = some dB ∧ descD = some dD ∧ r.out = some d1 ∧
      d1.mTensorDesc = [dA, dB, placeholder, dD] ∧
      placeholder.mType = DataType.NONE_TYPE ∧
      placeholder.mLengths.length = dD.mLengths.length ∧
      (∀ x ∈ placeholder.mLengths, x = 0) ∧
      placeholder.mStrides.length = dD.mStrides.length ∧
      (∀ x ∈ placeholder.mStrides, x = 0) ∧
      d1.mAlignmentRequirement = [alignA, alignB, 0, alignD] ∧
      d1.mTensorMode = [mAV, mBV, mDV] ∧
      mAV.length = dA.mLengths.length ∧ mBV.length = dB.mLengths.length ∧
      mDV.length = dD.mLengths.length ∧
      (∀ xs, modeA = some xs → mAV = xs.take dA.mLengths.length) ∧
      (∀ xs, modeB = some xs → mBV = xs.take dB.mLengths.length) ∧
      (∀ xs, modeD = some xs → mDV = xs.take dD.mLengths.length) ∧
      (d1.mContractionOpId = ContractionOpId_t.SCALE ∨
        d1.mContractionOpId = ContractionOpId_t.SCALE_COMPLEX) ∧
      d1.mComputeType = typeCompute ∧
      (∀ alignC2 : Nat,
        hiptensorInitContractionDescriptor handle desc descA modeA alignA descB modeB alignB
          none none alignC2 descD modeD alignD typeCompute = some r) := by
  unfold hiptensorInitContractionDescriptor at hcall
  split at hcall
  · rename_i h0 d0 dA dB dD
    split at hcall
    · simp at hcall; subst hcall; simp at hok
    · rename_i hcond
      split at hcall
      · rcases hscale with hc | hc <;> simp at hc
      · simp only [Option.bind_eq_some] at hcall
        obtain ⟨vA, hA, vB, hB, vD, hD, hr⟩ := hcall
        simp only [Option.some.injEq] at hr
        subst hr
        have hcond2 : (dA.mUnaryOp != HIPTENSOR_OP_IDENTITY
            || dB.mUnaryOp != HIPTENSOR_OP_IDENTITY
            || dD.mUnaryOp != HIPTENSOR_OP_IDENTITY || descCNonIdentity none) = false := by
          simp only [Bool.or_eq_true, not_or, Bool.not_eq_true] at hcond
          simp [descCNonIdentity, hcond.1.1.1, hcond.1.1.2, hcond.1.2]
        refine ⟨dA, dB, dD, scalePlaceholder dD, vA, vB, vD, _, rfl, rfl, rfl, rfl, rfl, rfl,
          by simp [scalePlaceholder], ?_, by simp [scalePlaceholder], ?_, rfl, rfl,
          readModes_length hA, readModes_length hB, readModes_length hD, ?_, ?_, ?_, ?_, rfl,
          ?_⟩
        · intro x hx
          simp only [scalePlaceholder] at hx
          exact List.eq_of_mem_replicate hx
        · intro x hx
          simp only [scalePlaceholder] at hx
          exact List.eq_of_mem_replicate hx
        · intro xs hxs; subst hxs; exact readModes_some hA
        · intro xs hxs; subst hxs; exact readModes_some hB
        · intro xs hxs; subst hxs; exact readModes_some hD
        · simp only []
          split_ifs <;> simp
        · intro alignC2
          simp only [hiptensorInitContractionDescriptor, hcond2, hA, hB, hD, Option.bind,
            Bool.false_eq_true, if_false]
  · simp at hcall; subst hcall; simp at hok

/-- Witness for C22: a non-null `descC` with a null `modeC`, a C alignment of
16 and a `modeD` array longer than D's rank build the scale sample descriptor,
and so does the same call without `descC`. -/
theorem initContractionDescriptor_scale_form_witness :
    hiptensorInitContractionDescriptor (some ⟨0⟩) (some emptyDescriptor)
        (some sampleTensor) (some [0, 1]) 16 (some sampleTensor) (some [1, 2]) 16
        (some sampleTensor) none 16 (some sampleTensor) (some [0, 2, 9]) 16
        (HIPTENSOR_COMPUTE_OTHER 4) =
      some ⟨HIPTENSOR_STATUS_SUCCESS, some sampleScaleDescriptor,
        [Event.logAPITrace Api.InitContractionDescriptor]⟩ ∧
    ∀ alignC2 : Nat,
      hiptensorInitContractionDescriptor (some ⟨0⟩) (some emptyDescriptor)
          (some sampleTensor) (some [0, 1]) 16 (some sampleTensor) (some [1, 2]) 16
          none none alignC2 (some sampleTensor) (some [0, 2, 9]) 16
          (HIPTENSOR_COMPUTE_OTHER 4) =
        some ⟨HIPTENSOR_STATUS_SUCCESS, some sampleScaleDescriptor,
          [Event.logAPITrace Api.InitContractionDescriptor]⟩ := by
  refine ⟨rfl, ?_⟩
  obtain ⟨_, _, _, _, _, _, _, _, _, _, _, _, _, _, _, _, _, _, _, _, _, _, _, _, _, _, _, _,
    hsame⟩ :=
    initContractionDescriptor_scale_form (some ⟨0⟩) (some emptyDescriptor)
      (some sampleTensor) (some [0, 1]) 16 (some sampleTensor) (some [1, 2]) 16
      (some sampleTensor) none 16 (some sampleTensor) (some [0, 2, 9]) 16
      (HIPTENSOR_COMPUTE_OTHER 4)
      ⟨HIPTENSOR_STATUS_SUCCESS, some sampleScaleDescriptor,
        [Event.logAPITrace Api.InitContractionDescriptor]⟩
      (Or.inr rfl) rfl rfl
  exact hsame

/-! ## pcg_hash -/

/-- Shifting right distributes over exclusive-or. -/
theorem shiftRight_xor (a b i : Nat) : (a ^^^ b) >>> i = (a >>> i) ^^^ (b >>> i) := by
  apply Nat.eq_of_testBit_eq
  intro j
  simp [Nat.testBit_shiftRight, Nat.testBit_xor]

/-- The step `x ^ (x >> k)` is injective for a positive shift `k`. -/
theorem xorshift_injective (k : Nat) (hk : 0 < k) (x y : Nat)
    (h : (x >>> k) ^^^ x = (y >>> k) ^^^ y) : x = y := by
  have hz : ((x ^^^ y) >>> k) ^^^ (x ^^^ y) = 0 := by
    rw [shiftRight_xor]
    have hperm : (x >>> k ^^^ y >>> k) ^^^ (x ^^^ y) =
        ((x >>> k) ^^^ x) ^^^ ((y >>> k) ^^^ y) := by
      apply Nat.eq_of_testBit_eq
      intro j
      simp only [Nat.testBit_xor]
      cases (x >>> k).testBit j <;> cases (y >>> k).testBit j <;> cases x.testBit j <;>
        cases y.testBit j <;> rfl
    rw [hperm, h, Nat.xor_self]
  have hfix : (x ^^^ y) >>> k = x ^^^ y := Nat.xor_eq_zero.mp hz
  have hzero : x ^^^ y = 0 := by
    by_contra hne
    have hpos : 0 < x ^^^ y := Nat.pos_of_ne_zero hne
    have hlt : (x ^^^ y) >>> k < x ^^^ y := by
      rw [Nat.shiftRight_eq_div_pow]
      exact Nat.div_lt_self hpos (Nat.one_lt_two_pow (Nat.pos_iff_ne_zero.mp hk))
    omega
  exact Nat.xor_eq_zero.mp hzero

/-- Multiplying by a unit modulo `2 ^ 32` and adding a constant is injective on
32-bit values. -/
theorem mulAdd_injective (a c : Nat) (ha : Nat.Coprime (2 ^ 32) a) (x y : Nat)
    (hx : x < 2 ^ 32) (hy : y < 2 ^ 32)
    (h : (x * a + c) % 2 ^ 32 = (y * a + c) % 2 ^ 32) : x = y := by
  have h1 : x * a + c ≡ y * a + c [MOD 2 ^ 32] := h
  have h2 : x * a ≡ y * a [MOD 2 ^ 32] := Nat.ModEq.add_right_cancel' c h1
  have h3 : x ≡ y [MOD 2 ^ 32] := Nat.ModEq.cancel_right_of_coprime ha h2
  exact Nat.ModEq.eq_of_lt_of_lt h3 hx hy

/-- Multiplying by a unit modulo `2 ^ 32` is injective on 32-bit values. -/
theorem mul_injective (a : Nat) (ha : Nat.Coprime (2 ^ 32) a) (x y : Nat)
    (hx : x < 2 ^ 32) (hy : y < 2 ^ 32)
    (h : (x * a) % 2 ^ 32 = (y * a) % 2 ^ 32) : x = y := by
  have h1 : x * a ≡ y * a [MOD 2 ^ 32] := h
  have h2 : x ≡ y [MOD 2 ^ 32] := Nat.ModEq.cancel_right_of_coprime ha h1
  exact Nat.ModEq.eq_of_lt_of_lt h2 hx hy

/-- A shift by at least 4 leaves the top four bits of a 32-bit value in place
under `x ^ (x >> k)`, so the shift amount can be read back from the result. -/
theorem xorshift_top_bits (s k : Nat) (hs : s < 2 ^ 32) (hk : 4 ≤ k) :
    ((s >>> k) ^^^ s) >>> 28 = s >>> 28 := by
  rw [shiftRight_xor, ← Nat.shiftRight_add]
  have hzero : s >>> (k + 28) = 0 := by
    rw [Nat.shiftRight_eq_div_pow]
    apply Nat.div_eq_of_lt
    calc s < 2 ^ 32 := hs
      _ ≤ 2 ^ (k + 28) := Nat.pow_le_pow_right (by norm_num) (by omega)
  rw [hzero, Nat.zero_xor]

/-- The data-dependent step `(state >> ((state >> 28) + 4)) ^ state` is
injective on 32-bit values. -/
theorem variable_xorshift_injective (s t : Nat) (hs : s < 2 ^ 32) (ht : t < 2 ^ 32)
    (h : (s >>> ((s >>> 28) + 4)) ^^^ s = (t >>> ((t >>> 28) + 4)) ^^^ t) : s = t := by
  have htop : s >>> 28 = t >>> 28 := by
    have h1 := xorshift_top_bits s ((s >>> 28) + 4) hs (by omega)
    have h2 := xorshift_top_bits t ((t >>> 28) + 4) ht (by omega)
    rw [← h1, ← h2, h]
  rw [htop] at h
  exact xorshift_injective ((t >>> 28) + 4) (by omega) s t h

/-- The shifted value, and with it the exclusive-or, of a 32-bit value is a
32-bit value. -/
theorem xorshift_lt (s k : Nat) (hs : s < 2 ^ 32) : (s >>> k) ^^^ s < 2 ^ 32 := by
  apply Nat.xor_lt_two_pow _ hs
  rw [Nat.shiftRight_eq_div_pow]
  exact lt_of_le_of_lt (Nat.div_le_self _ _) hs

/-- C23: `pcg_hash` on 32-bit unsigned values is well defined and injective:
for every input the data-dependent shift amount `(state >> 28) + 4` lies
between 4 and 19, below the word width of 32; the result is again a 32-bit
value; and two 32-bit inputs with the same hash are equal. -/
theorem pcg_hash_injective :
    (∀ input : Nat,
      4 ≤ (((input * 747796405 + 2891336453) % 2 ^ 32) >>> 28) + 4 ∧
      (((input * 747796405 + 2891336453) % 2 ^ 32) >>> 28) + 4 ≤ 19 ∧
      (((input * 747796405 + 2891336453) % 2 ^ 32) >>> 28) + 4 < 32) ∧
    (∀ input : Nat, pcg_hash input < 2 ^ 32) ∧
    (∀ x y : Nat, x < 2 ^ 32 → y < 2 ^ 32 → pcg_hash x = pcg_hash y → x = y) := by
  refine ⟨?_, ?_, ?_⟩
  · intro input
    have hlt : (input * 747796405 + 2891336453) % 2 ^ 32 < 2 ^ 32 :=
      Nat.mod_lt _ (by norm_num)
    have hsh : ((input * 747796405 + 2891336453) % 2 ^ 32) >>> 28 < 16 := by
      rw [Nat.shiftRight_eq_div_pow]
      apply Nat.div_lt_of_lt_mul
      norm_num at hlt ⊢
      exact hlt
    omega
  · intro input
    unfold pcg_hash
    exact xorshift_lt _ 22 (Nat.mod_lt _ (by norm_num))
  · intro x y hx hy h
    unfold pcg_hash at h
    simp only at h
    have hsx : (x * 747796405 + 2891336453) % 2 ^ 32 < 2 ^ 32 := Nat.mod_lt _ (by norm_num)
    have hsy : (y * 747796405 + 2891336453) % 2 ^ 32 < 2 ^ 32 := Nat.mod_lt _ (by norm_num)
    have hword := xorshift_injective 22 (by norm_num) _ _ h
    have hmix := mul_injective 277803737 (by norm_num) _ _
      (xorshift_lt _ _ hsx) (xorshift_lt _ _ hsy) hword
    have hstate := variable_xorshift_injective _ _ hsx hsy hmix
    exact mulAdd_injective 747796405 2891336453 (by norm_num) x y hx hy hstate

/-- Witness for C23: the inputs 0 and 1 hash to 129708002 and 2831084092, and
the first uses a shift of 14. -/
theorem pcg_hash_injective_witness :
    pcg_hash 0 = 129708002 ∧ pcg_hash 1 = 2831084092 ∧ pcg_hash 0 ≠ pcg_hash 1 ∧
    (((0 * 747796405 + 2891336453) % 2 ^ 32) >>> 28) + 4 = 14 :=
  ⟨by decide, by decide,
    fun h => absurd (pcg_hash_injective.2.2 0 1 (by norm_num) (by norm_num) h) (by decide),
    by decide⟩

end hiptensor
